import Mathlib

set_option maxHeartbeats 1000000
set_option maxRecDepth 100000

/- Verification development for the cardiorisk-calculator backend.

   Shallow embedding of src/backend/validators.py, src/backend/calculators.py
   and the /calculate handler of src/backend/app.py.

   Modelling conventions:
   - Python numbers (ints and floats) are modelled as rationals; the decimal
     literals of the source are taken at their exact decimal value.  The
     transcendental parts of the two equation models (math.log, math.exp,
     float `**`) are modelled over the reals with Real.log, Real.exp and
     real rpow.
   - `round(x, 1)` is modelled as `round (10*x) / 10`; Python uses
     round-half-even on binary floats, which agrees except at exact
     half-multiples of 0.1 (no claim depends on a half-way case).
   - A patient record (a Python dict built from JSON) is an association list
     of string keys and JSON-like values, in insertion order.  Assignment to
     an existing key keeps its position; assignment to a fresh key appends,
     as CPython dicts do.
   - Fallible Python operations (KeyError, TypeError, ValueError,
     ZeroDivisionError, AttributeError) are modelled with Except.
     `float(...)` of a numeric string is not modelled (it is mapped to the
     error case); no code path exercised here feeds numeric strings to it. -/

namespace Cardio

/-- JSON-like values held in a patient dictionary. -/
inductive JVal where
  | num (q : ℚ)
  | str (s : String)
  | bool (b : Bool)
  | null
  deriving DecidableEq, Repr

/-- A Python dict from JSON: association list in insertion order. -/
abbrev PDict := List (String × JVal)

/-- Python exceptions that the embedded code can raise. -/
inductive PyErr where
  | keyError (k : String)
  | typeError
  | valueError (msg : String)
  | zeroDivisionError
  | attributeError
  deriving DecidableEq, Repr

deriving instance DecidableEq for Except

/-- Python str(e) for the exceptions above (only the ValueError texts are
ever inspected by the embedded app code). -/
def errMsg : PyErr → String
  | .valueError m => m
  | .keyError k => k
  | .typeError => "TypeError"
  | .zeroDivisionError => "division by zero"
  | .attributeError => "AttributeError"

/-- Dict lookup by string key (first occurrence). -/
def dlookup : PDict → String → Option JVal
  | [], _ => none
  | (k, v) :: rest, key => if key == k then some v else dlookup rest key

/-- Dict item assignment: replaces the value of an existing key in place,
appends a fresh key at the end (CPython dict semantics). -/
def dset : PDict → String → JVal → PDict
  | [], k, v => [(k, v)]
  | (k1, v1) :: rest, k, v =>
      if k1 == k then (k, v) :: rest else (k1, v1) :: dset rest k v

/-- Python d[k]: raises KeyError when absent. -/
def dget (d : PDict) (k : String) : Except PyErr JVal :=
  match dlookup d k with
  | some v => .ok v
  | none => .error (.keyError k)

/-- Python d.get(k, default). -/
def pyGet (d : PDict) (k : String) (dflt : JVal) : JVal :=
  match dlookup d k with
  | some v => v
  | none => dflt

/-- Association-list lookup with rational keys (dict indexing in the SCORE
tables). -/
def qlookup {α : Type} : List (ℚ × α) → ℚ → Option α
  | [], _ => none
  | (k, v) :: rest, key => if key = k then some v else qlookup rest key

/-- Association-list lookup with string keys (dict indexing by gender and by
the RANGES field name). -/
def slookup {α : Type} : List (String × α) → String → Option α
  | [], _ => none
  | (k, v) :: rest, key => if key == k then some v else slookup rest key

/-- A dict value used directly as a number (comparisons, math.log, division):
numbers and bools are numeric in Python, anything else raises TypeError. -/
def pyNum : JVal → Except PyErr ℚ
  | .num q => .ok q
  | .bool b => .ok (if b then 1 else 0)
  | _ => .error .typeError

/-- Python float(v) on a dict value.  Numbers convert to themselves, bools to
0/1.  float of None raises TypeError; float of a string raises ValueError
unless the string parses as a number — string parsing is not modelled, see
the header note. -/
def pyFloat : JVal → Except PyErr ℚ
  | .num q => .ok q
  | .bool b => .ok (if b then 1 else 0)
  | .str _ => .error (.valueError "could not convert string to float")
  | .null => .error .typeError

/-- Python truthiness bool(v) of a JSON value. -/
def pyTruthy : JVal → Bool
  | .num q => if q = 0 then false else true
  | .str s => if s == "" then false else true
  | .bool b => b
  | .null => false

/-- Python int(v): bools to 0/1, numbers truncate toward zero. -/
def pyInt : JVal → Except PyErr ℤ
  | .num q => .ok (if 0 ≤ q then ⌊q⌋ else -⌊-q⌋)
  | .bool b => .ok (if b then 1 else 0)
  | .str _ => .error (.valueError "invalid literal for int")
  | .null => .error .typeError

/-- ASCII lowercasing of one character (the alphabet this app compares —
hombre/mujer/blanco/afroamericano — is ASCII). -/
def lowerChar (c : Char) : Char :=
  if 65 ≤ c.toNat ∧ c.toNat ≤ 90 then Char.ofNat (c.toNat + 32) else c

/-- Python s.lower() (ASCII range; see lowerChar). -/
def strLower (s : String) : String := ⟨s.data.map lowerChar⟩

/-- Python v.lower() on a dict value: AttributeError unless it is a string. -/
def pyLower : JVal → Except PyErr String
  | .str s => .ok (strLower s)
  | _ => .error .attributeError

/-- Python float division: raises ZeroDivisionError on a zero divisor. -/
def pyDiv (a b : ℚ) : Except PyErr ℚ :=
  if b = 0 then .error .zeroDivisionError else .ok (a / b)

/-- Python round(x, 1) over the rationals (see header note on half-way
cases). -/
def qround1 (x : ℚ) : ℚ := ((round (10 * x) : ℤ) : ℚ) / 10

/- ------------------------------------------------------------------
   validators.py
   ------------------------------------------------------------------ -/

/-- RANGES of validators.py: inclusive physiological bounds per field. -/
def RANGES : List (String × ℚ × ℚ) :=
  [("edad", 20, 79),
   ("presion_sistolica", 90, 200),
   ("colesterol_total", 100, 400),
   ("hdl", 20, 100),
   ("ldl", 50, 200),
   ("presion_diastolica", 60, 120),
   ("peso", 30, 200),
   ("altura", 100, 250)]

/-- The required_fields list of validate_patient_data. -/
def requiredFields : List String :=
  ["edad", "sexo", "colesterol_total", "hdl", "presion_sistolica"]

/-- The bool_fields list of validate_patient_data. -/
def boolFields : List String :=
  ["fumador", "diabetes", "tratamiento_hipertension", "estatinas"]

/-- Validation messages.  Each constructor stands for the corresponding
Spanish f-string of validators.py, carrying the interpolated data:
missing f                ~ "Falta el parámetro obligatorio: f"
outOfRange f lo hi v     ~ "f fuera de rango (lo-hi): v"
atLimit f v              ~ "f en el límite permitido: v"
badSex                   ~ the sex-enum error message
pressureAge              ~ "Presión sistólica elevada para la edad"
ratioHigh                ~ "Ratio colesterol total/HDL elevado (>5)" -/
inductive VMsg where
  | missing (f : String)
  | outOfRange (f : String) (lo hi v : ℚ)
  | atLimit (f : String) (v : ℚ)
  | badSex
  | pressureAge
  | ratioHigh
  deriving DecidableEq, Repr

/-- The test `data[field] is None or data[field] == ""` of the
required-fields loop. -/
def isMissingVal : JVal → Bool
  | .null => true
  | .str s => s == ""
  | _ => false

/-- One iteration of the required-fields loop of validate_patient_data:
missing/None/empty appends a blocking error and skips the range check;
otherwise, when the field has a RANGES entry, float-convert and compare
against the inclusive bounds (strictly outside: error; exactly at a bound:
warning). -/
def checkField (d : PDict) (f : String) : Except PyErr (List VMsg × List VMsg) :=
  match dlookup d f with
  | none => .ok ([.missing f], [])
  | some v =>
    if isMissingVal v then .ok ([.missing f], [])
    else
      match slookup RANGES f with
      | none => .ok ([], [])
      | some (lo, hi) =>
        match pyFloat v with
        | .error e => .error e
        | .ok value =>
          if ¬(lo ≤ value ∧ value ≤ hi) then .ok ([.outOfRange f lo hi value], [])
          else if value = lo ∨ value = hi then .ok ([], [.atLimit f value])
          else .ok ([], [])

/-- The required-fields loop, accumulating errors and warnings in order. -/
def checkRequired (d : PDict) : List String → Except PyErr (List VMsg × List VMsg)
  | [] => .ok ([], [])
  | f :: fs =>
    match checkField d f with
    | .error e => .error e
    | .ok (es, ws) =>
      match checkRequired d fs with
      | .error e => .error e
      | .ok (es2, ws2) => .ok (es ++ es2, ws ++ ws2)

/-- The sex-enum check: an error when "sexo" is present but is neither the
string "hombre" nor "mujer". -/
def isValidSexVal : JVal → Bool
  | .str s => s == "hombre" || s == "mujer"
  | _ => false

/-- The sex-enum check body. -/
def checkSexo (d : PDict) : List VMsg :=
  match dlookup d "sexo" with
  | some v => if isValidSexVal v then [] else [.badSex]
  | none => []

/-- One iteration of the boolean-coercion loop: a missing flag is written as
False; a present non-bool is replaced by its truthiness. -/
def coerceBoolField (d : PDict) (bf : String) : PDict :=
  match dlookup d bf with
  | none => dset d bf (.bool false)
  | some (.bool _) => d
  | some v => dset d bf (.bool (pyTruthy v))

/-- The boolean-coercion loop of validate_patient_data (mutates the input
dict: this is the value the dict holds afterwards). -/
def coerceBools (d : PDict) : PDict := boolFields.foldl coerceBoolField d

/-- The age/pressure medical heuristics (warnings only). -/
def checkAgePressure (d : PDict) : Except PyErr (List VMsg) :=
  match dlookup d "edad", dlookup d "presion_sistolica" with
  | some ev, some pv =>
    (match pyFloat ev with
     | .error e => .error e
     | .ok edad =>
       match pyFloat pv with
       | .error e => .error e
       | .ok presion =>
         .ok ((if edad < 40 ∧ presion > 140 then [VMsg.pressureAge] else []) ++
              (if edad > 65 ∧ presion > 130 then [VMsg.pressureAge] else [])))
  | _, _ => .ok []

/-- The cholesterol/HDL ratio heuristic: divides total cholesterol by HDL
(a Python ZeroDivisionError when HDL is 0). -/
def checkCholHdl (d : PDict) : Except PyErr (List VMsg) :=
  match dlookup d "colesterol_total", dlookup d "hdl" with
  | some cv, some hv =>
    (match pyFloat cv with
     | .error e => .error e
     | .ok colTotal =>
       match pyFloat hv with
       | .error e => .error e
       | .ok hdl =>
         match pyDiv colTotal hdl with
         | .error e => .error e
         | .ok r => .ok (if r > 5 then [VMsg.ratioHigh] else []))
  | _, _ => .ok []

/-- validate_patient_data of validators.py.  Returns (is_valid, messages,
dict-after-mutation): messages are the errors when any blocking error
exists, otherwise the warnings.  The returned dict reflects the in-place
boolean coercion performed on the input. -/
def validate_patient_data (d : PDict) : Except PyErr (Bool × List VMsg × PDict) :=
  match checkRequired d requiredFields with
  | .error e => .error e
  | .ok (errs1, warns1) =>
    let errs := errs1 ++ checkSexo d
    let d2 := coerceBools d
    match checkAgePressure d2 with
    | .error e => .error e
    | .ok w2 =>
      match checkCholHdl d2 with
      | .error e => .error e
      | .ok w3 =>
        .ok (errs.isEmpty, if errs.isEmpty then warns1 ++ w2 ++ w3 else errs, d2)

/- ------------------------------------------------------------------
   calculators.py : SCORE lookup tables and table model
   ------------------------------------------------------------------ -/

/-- Innermost SCORE cell: the risk values for (non-smoker, smoker). -/
abbrev SCell := ℚ × ℚ

/-- Pressure level of a SCORE table: systolic-pressure key to cell. -/
abbrev SPress := List (ℚ × SCell)

/-- Cholesterol level: mmol/L key to pressure level. -/
abbrev SChol := List (ℚ × SPress)

/-- Age level: age key to cholesterol level. -/
abbrev SAge := List (ℚ × SChol)

/-- Gender level: "H"/"M" to age level. -/
abbrev STable := List (String × SAge)

/-- SCORE_TABLE_LOW of calculators.py, keys in source (insertion) order. -/
def SCORE_TABLE_LOW : STable := [
  ("H", [
    (40, [
      (4, [(120, (0, 1)), (140, (0, 1)), (160, (1, 1)), (180, (1, 2))]),
      (5, [(120, (0, 1)), (140, (1, 1)), (160, (1, 2)), (180, (1, 2))]),
      (6, [(120, (1, 1)), (140, (1, 1)), (160, (1, 2)), (180, (1, 3))]),
      (7, [(120, (1, 1)), (140, (1, 2)), (160, (1, 2)), (180, (2, 3))]),
      (8, [(120, (1, 1)), (140, (1, 2)), (160, (1, 3)), (180, (2, 4))])
    ]),
    (50, [
      (4, [(120, (1, 2)), (140, (2, 3)), (160, (2, 5)), (180, (4, 7))]),
      (5, [(120, (1, 3)), (140, (2, 4)), (160, (3, 6)), (180, (4, 8))]),
      (6, [(120, (2, 3)), (140, (2, 5)), (160, (3, 7)), (180, (5, 10))]),
      (7, [(120, (2, 4)), (140, (3, 6)), (160, (4, 8)), (180, (6, 12))]),
      (8, [(120, (2, 5)), (140, (3, 7)), (160, (5, 10)), (180, (7, 14))])
    ]),
    (55, [
      (4, [(120, (2, 4)), (140, (3, 5)), (160, (4, 8)), (180, (6, 12))]),
      (5, [(120, (2, 4)), (140, (3, 6)), (160, (5, 9)), (180, (7, 13))]),
      (6, [(120, (3, 5)), (140, (4, 8)), (160, (6, 11)), (180, (8, 16))]),
      (7, [(120, (3, 6)), (140, (5, 9)), (160, (7, 13)), (180, (10, 19))]),
      (8, [(120, (4, 8)), (140, (6, 11)), (160, (8, 16)), (180, (12, 22))])
    ]),
    (60, [
      (4, [(120, (3, 6)), (140, (4, 8)), (160, (6, 12)), (180, (9, 18))]),
      (5, [(120, (3, 7)), (140, (5, 10)), (160, (7, 14)), (180, (11, 21))]),
      (6, [(120, (4, 8)), (140, (6, 12)), (160, (9, 17)), (180, (13, 24))]),
      (7, [(120, (5, 10)), (140, (7, 14)), (160, (10, 20)), (180, (15, 28))]),
      (8, [(120, (6, 12)), (140, (9, 17)), (160, (12, 24)), (180, (18, 33))])
    ]),
    (65, [
      (4, [(120, (4, 9)), (140, (6, 13)), (160, (9, 18)), (180, (14, 26))]),
      (5, [(120, (5, 10)), (140, (7, 15)), (160, (11, 21)), (180, (16, 30))]),
      (6, [(120, (6, 12)), (140, (9, 17)), (160, (13, 25)), (180, (19, 35))]),
      (7, [(120, (7, 14)), (140, (11, 20)), (160, (15, 29)), (180, (22, 41))]),
      (8, [(120, (9, 17)), (140, (13, 24)), (160, (16, 34)), (180, (26, 47))])
    ])
  ]),
  ("M", [
    (40, [
      (4, [(120, (0, 0)), (140, (0, 0)), (160, (0, 0)), (180, (0, 0))]),
      (5, [(120, (0, 0)), (140, (0, 0)), (160, (0, 0)), (180, (0, 0))]),
      (6, [(120, (0, 0)), (140, (0, 0)), (160, (0, 0)), (180, (0, 0))]),
      (7, [(120, (0, 0)), (140, (0, 0)), (160, (0, 0)), (180, (0, 1))]),
      (8, [(120, (0, 0)), (140, (0, 0)), (160, (0, 0)), (180, (0, 1))])
    ]),
    (50, [
      (4, [(120, (0, 1)), (140, (0, 1)), (160, (1, 1)), (180, (1, 2))]),
      (5, [(120, (1, 1)), (140, (1, 2)), (160, (1, 2)), (180, (1, 2))]),
      (6, [(120, (1, 1)), (140, (1, 2)), (160, (1, 2)), (180, (1, 3))]),
      (7, [(120, (1, 1)), (140, (1, 2)), (160, (2, 2)), (180, (2, 3))]),
      (8, [(120, (1, 1)), (140, (1, 2)), (160, (2, 3)), (180, (2, 4))])
    ]),
    (55, [
      (4, [(120, (1, 1)), (140, (1, 2)), (160, (1, 3)), (180, (2, 4))]),
      (5, [(120, (1, 1)), (140, (1, 2)), (160, (2, 3)), (180, (2, 5))]),
      (6, [(120, (1, 1)), (140, (1, 2)), (160, (2, 4)), (180, (3, 5))]),
      (7, [(120, (1, 1)), (140, (1, 3)), (160, (2, 4)), (180, (3, 6))]),
      (8, [(120, (1, 1)), (140, (2, 3)), (160, (3, 5)), (180, (4, 7))])
    ]),
    (60, [
      (4, [(120, (1, 2)), (140, (2, 3)), (160, (3, 5)), (180, (4, 8))]),
      (5, [(120, (1, 3)), (140, (2, 4)), (160, (3, 6)), (180, (4, 9))]),
      (6, [(120, (2, 3)), (140, (2, 5)), (160, (3, 7)), (180, (5, 10))]),
      (7, [(120, (2, 4)), (140, (3, 5)), (160, (4, 8)), (180, (6, 11))]),
      (8, [(120, (2, 4)), (140, (3, 6)), (160, (5, 9)), (180, (7, 13))])
    ]),
    (65, [
      (4, [(120, (2, 4)), (140, (3, 6)), (160, (5, 9)), (180, (7, 13))]),
      (5, [(120, (2, 5)), (140, (3, 7)), (160, (5, 10)), (180, (8, 15))]),
      (6, [(120, (3, 5)), (140, (4, 8)), (160, (6, 12)), (180, (9, 17))]),
      (7, [(120, (3, 6)), (140, (5, 9)), (160, (7, 13)), (180, (10, 19))]),
      (8, [(120, (4, 7)), (140, (6, 11)), (160, (8, 16)), (180, (12, 22))])
    ])
  ])
]

/-- SCORE_TABLE_HIGH of calculators.py, keys in source (insertion) order:
note the genders are listed M then H and the age keys descend. -/
def SCORE_TABLE_HIGH : STable := [
  ("M", [
    (65, [
      (4, [(120, (1, 3)), (140, (2, 4)), (160, (3, 6)), (180, (4, 9))]),
      (5, [(120, (1, 3)), (140, (2, 4)), (160, (3, 6)), (180, (5, 9))]),
      (6, [(120, (2, 3)), (140, (2, 5)), (160, (4, 7)), (180, (6, 11))]),
      (7, [(120, (2, 4)), (140, (3, 6)), (160, (4, 8)), (180, (6, 12))]),
      (8, [(120, (2, 4)), (140, (3, 7)), (160, (5, 10)), (180, (7, 14))])
    ]),
    (60, [
      (4, [(120, (1, 1)), (140, (1, 2)), (160, (2, 3)), (180, (3, 5))]),
      (5, [(120, (1, 2)), (140, (1, 2)), (160, (2, 4)), (180, (3, 5))]),
      (6, [(120, (1, 2)), (140, (1, 3)), (160, (2, 4)), (180, (3, 6))]),
      (7, [(120, (1, 2)), (140, (2, 3)), (160, (2, 5)), (180, (4, 7))]),
      (8, [(120, (1, 3)), (140, (2, 4)), (160, (3, 5)), (180, (4, 8))])
    ]),
    (55, [
      (4, [(120, (0, 1)), (140, (1, 1)), (160, (1, 2)), (180, (1, 3))]),
      (5, [(120, (0, 1)), (140, (1, 1)), (160, (1, 2)), (180, (1, 3))]),
      (6, [(120, (1, 1)), (140, (1, 1)), (160, (1, 2)), (180, (2, 3))]),
      (7, [(120, (1, 1)), (140, (1, 1)), (160, (1, 2)), (180, (2, 4))]),
      (8, [(120, (1, 1)), (140, (1, 1)), (160, (1, 2)), (180, (2, 4))])
    ]),
    (50, [
      (4, [(120, (0, 0)), (140, (0, 1)), (160, (0, 1)), (180, (1, 1))]),
      (5, [(120, (0, 0)), (140, (0, 1)), (160, (0, 1)), (180, (1, 1))]),
      (6, [(120, (1, 1)), (140, (0, 1)), (160, (1, 1)), (180, (1, 2))]),
      (7, [(120, (1, 1)), (140, (0, 1)), (160, (1, 1)), (180, (1, 2))]),
      (8, [(120, (1, 1)), (140, (0, 1)), (160, (1, 1)), (180, (1, 2))])
    ]),
    (40, [
      (4, [(120, (0, 0)), (140, (0, 0)), (160, (0, 0)), (180, (0, 0))]),
      (5, [(120, (0, 0)), (140, (0, 0)), (160, (0, 0)), (180, (0, 0))]),
      (6, [(120, (0, 0)), (140, (0, 0)), (160, (0, 0)), (180, (0, 0))]),
      (7, [(120, (0, 0)), (140, (0, 0)), (160, (0, 0)), (180, (0, 0))]),
      (8, [(120, (0, 0)), (140, (0, 0)), (160, (0, 0)), (180, (0, 0))])
    ])
  ]),
  ("H", [
    (65, [
      (4, [(120, (2, 5)), (140, (4, 7)), (160, (5, 10)), (180, (8, 15))]),
      (5, [(120, (2, 5)), (140, (4, 7)), (160, (6, 12)), (180, (9, 17))]),
      (6, [(120, (3, 6)), (140, (5, 9)), (160, (7, 14)), (180, (10, 20))]),
      (7, [(120, (4, 8)), (140, (6, 11)), (160, (8, 16)), (180, (12, 23))]),
      (8, [(120, (5, 9)), (140, (7, 13)), (160, (10, 19)), (180, (14, 26))])
    ]),
    (60, [
      (4, [(120, (2, 3)), (140, (2, 5)), (160, (3, 7)), (180, (5, 10))]),
      (5, [(120, (2, 4)), (140, (3, 5)), (160, (4, 8)), (180, (6, 11))]),
      (6, [(120, (2, 4)), (140, (3, 6)), (160, (5, 9)), (180, (7, 13))]),
      (7, [(120, (3, 5)), (140, (4, 7)), (160, (5, 11)), (180, (8, 15))]),
      (8, [(120, (3, 6)), (140, (4, 9)), (160, (6, 13)), (180, (9, 18))])
    ]),
    (55, [
      (4, [(120, (1, 2)), (140, (1, 3)), (160, (2, 4)), (180, (3, 6))]),
      (5, [(120, (1, 2)), (140, (2, 3)), (160, (2, 5)), (180, (4, 7))]),
      (6, [(120, (1, 3)), (140, (2, 4)), (160, (3, 6)), (180, (4, 8))]),
      (7, [(120, (2, 3)), (140, (2, 5)), (160, (3, 7)), (180, (5, 10))]),
      (8, [(120, (2, 4)), (140, (3, 6)), (160, (4, 8)), (180, (6, 12))])
    ]),
    (50, [
      (4, [(120, (1, 1)), (140, (1, 2)), (160, (1, 3)), (180, (2, 4))]),
      (5, [(120, (1, 1)), (140, (1, 2)), (160, (2, 3)), (180, (2, 4))]),
      (6, [(120, (1, 2)), (140, (1, 2)), (160, (2, 3)), (180, (3, 5))]),
      (7, [(120, (1, 2)), (140, (1, 3)), (160, (2, 4)), (180, (3, 6))]),
      (8, [(120, (1, 2)), (140, (2, 3)), (160, (2, 5)), (180, (4, 7))])
    ]),
    (40, [
      (4, [(120, (0, 0)), (140, (0, 0)), (160, (0, 1)), (180, (0, 1))]),
      (5, [(120, (0, 0)), (140, (0, 0)), (160, (0, 1)), (180, (1, 1))]),
      (6, [(120, (0, 0)), (140, (0, 0)), (160, (1, 1)), (180, (1, 1))]),
      (7, [(120, (1, 1)), (140, (1, 1)), (160, (2, 1)), (180, (3, 2))]),
      (8, [(120, (1, 1)), (140, (1, 1)), (160, (2, 1)), (180, (3, 2))])
    ])
  ])
]

/-- One comparison step of Python min(..., key=f): keeps the incumbent on
ties, so the earliest element of the iteration wins. -/
def pyMinStep (f : ℚ → ℚ) (best k : ℚ) : ℚ := if f k < f best then k else best

/-- Python min(keys, key=f): the first element attaining the minimal f-value,
None (modelled as Option) on an empty sequence. -/
def pyMinBy (f : ℚ → ℚ) : List ℚ → Option ℚ
  | [] => none
  | x :: xs => some (xs.foldl (pyMinStep f) x)

/-- The stored key sequence of an association level (Python dict .keys()). -/
def keysOf {α : Type} (l : List (ℚ × α)) : List ℚ := l.map Prod.fst

/-- The comparison `patient.get("region_riesgo", "bajo") == "alto"`. -/
def isAltoVal : JVal → Bool
  | .str s => s == "alto"
  | _ => false

/-- The table walk of score_lookup once the region/sex table and the age are
fixed: nearest stored age key, cholesterol conversion mg/dL -> mmol/L by
division by 38.67 and nearest stored cholesterol key, nearest stored
systolic key, indexing by the smoker flag, the 25.0 ceiling and one-decimal
rounding. -/
def score_from_table (d : PDict) (tbl : SAge) (edad : ℚ) : Except PyErr ℚ :=
  match pyMinBy (fun a => |a - edad|) (keysOf tbl) with
  | none => .error (.valueError "min arg is an empty sequence")
  | some closestAge =>
    match dget d "colesterol_total" with
    | .error e => .error e
    | .ok cholV =>
      match pyNum cholV with
      | .error e => .error e
      | .ok chol =>
        let cholMmol := chol / 38.67
        match qlookup tbl closestAge with
        | none => .error (.keyError "age")
        | some tblA =>
          match pyMinBy (fun c => |c - cholMmol|) (keysOf tblA) with
          | none => .error (.valueError "min arg is an empty sequence")
          | some closestChol =>
            match dget d "presion_sistolica" with
            | .error e => .error e
            | .ok pressV =>
              match pyNum pressV with
              | .error e => .error e
              | .ok press =>
                match qlookup tblA closestChol with
                | none => .error (.keyError "chol")
                | some tblC =>
                  match pyMinBy (fun p => |p - press|) (keysOf tblC) with
                  | none => .error (.valueError "min arg is an empty sequence")
                  | some closestPress =>
                    match qlookup tblC closestPress with
                    | none => .error (.keyError "press")
                    | some cell =>
                      match dget d "fumador" with
                      | .error e => .error e
                      | .ok fumV =>
                        match fumV with
                        | .bool b =>
                          let risk := if b then cell.2 else cell.1
                          .ok (qround1 (min risk 25))
                        | _ => .error (.keyError "fumador")

/-- score_lookup of calculators.py: strict 40-65 age gate, sex and
region-tier table selection, then the nearest-key table walk
(score_from_table). -/
def score_lookup (d : PDict) : Except PyErr ℚ :=
  match dget d "edad" with
  | .error e => .error e
  | .ok edadV =>
    match pyNum edadV with
    | .error e => .error e
    | .ok edad =>
      if edad < 40 ∨ edad > 65 then
        .error (.valueError "SCORE solo es válido para pacientes de 40 a 65 años.")
      else
        match dget d "sexo" with
        | .error e => .error e
        | .ok sexoV =>
          match pyLower sexoV with
          | .error e => .error e
          | .ok sexo =>
            let gender := if sexo == "hombre" then "H" else "M"
            let tbl0 := if isAltoVal (pyGet d "region_riesgo" (.str "bajo"))
                        then SCORE_TABLE_HIGH else SCORE_TABLE_LOW
            match slookup tbl0 gender with
            | none => .error (.keyError gender)
            | some tbl => score_from_table d tbl edad

/- ------------------------------------------------------------------
   calculators.py : Framingham and ACC/AHA equations, categorization
   ------------------------------------------------------------------ -/

noncomputable section

/-- Python math.log: ValueError on a non-positive argument, Real.log
otherwise. -/
def pyLog (x : ℝ) : Except PyErr ℝ :=
  if x ≤ 0 then .error (.valueError "math domain error") else .ok (Real.log x)

/-- Python round(x, 1) over the reals (see header note on half-way cases). -/
def round1 (x : ℝ) : ℝ := ((round (10 * x) : ℤ) : ℝ) / 10

/-- Elementwise difference of two numpy vectors. -/
def npSub (a b : List ℝ) : List ℝ := List.zipWith (fun x y => x - y) a b

/-- numpy dot product of two vectors. -/
def npDot (a b : List ℝ) : ℝ := (List.zipWith (fun x y => x * y) a b).sum

/-- FRAMINGHAM_BETA_M of calculators.py. -/
def FRAMINGHAM_BETA_M : List ℝ := [3.06117, 1.12370, -0.93263, 1.93303, 0.65451, 0.57367]

/-- FRAMINGHAM_BETA_F of calculators.py. -/
def FRAMINGHAM_BETA_F : List ℝ := [2.32888, 1.20904, -0.70833, 2.76157, 0.69154, 0.52873]

/-- FRAMINGHAM_MEAN_M of calculators.py (means already on the log scale). -/
def FRAMINGHAM_MEAN_M : List ℝ :=
  [Real.log 52.0, Real.log 213.0, Real.log 50.0, Real.log 120.0, 0.0, 0.0]

/-- FRAMINGHAM_MEAN_F of calculators.py. -/
def FRAMINGHAM_MEAN_F : List ℝ :=
  [Real.log 52.0, Real.log 213.0, Real.log 50.0, Real.log 120.0, 0.0, 0.0]

/-- FRAMINGHAM_S0_M of calculators.py. -/
def FRAMINGHAM_S0_M : ℝ := 0.88936

/-- FRAMINGHAM_S0_F of calculators.py. -/
def FRAMINGHAM_S0_F : ℝ := 0.95012

/-- categorize_risk of calculators.py: the four ordinal bands. -/
def categorize_risk (pct : ℝ) : String :=
  if pct < 5 then "bajo"
  else if pct < 10 then "moderado"
  else if pct < 20 then "alto"
  else "muy alto"

/-- framingham_points of calculators.py: strict 30-74 age gate (raises
ValueError outside), log-transformed covariate vector, sex-specific beta,
mean and baseline survival, risk = 1 - S0 ** exp(logit), percentage clamped
at 100 and rounded to one decimal. -/
def framingham_points (d : PDict) : Except PyErr ℝ :=
  match dget d "edad" with
  | .error e => .error e
  | .ok edadV =>
    match pyNum edadV with
    | .error e => .error e
    | .ok edad =>
      if edad < 30 ∨ edad > 74 then
        .error (.valueError "Framingham Risk Score solo es válido para pacientes de 30 a 74 años.")
      else
        match dget d "sexo" with
        | .error e => .error e
        | .ok sexoV =>
          match pyLower sexoV with
          | .error e => .error e
          | .ok sexo =>
            let is_male := sexo == "hombre"
            match pyLog (edad : ℝ) with
            | .error e => .error e
            | .ok la =>
              match dget d "colesterol_total" with
              | .error e => .error e
              | .ok cholV =>
                match pyNum cholV with
                | .error e => .error e
                | .ok chol =>
                  match pyLog (chol : ℝ) with
                  | .error e => .error e
                  | .ok lc =>
                    match dget d "hdl" with
                    | .error e => .error e
                    | .ok hdlV =>
                      match pyNum hdlV with
                      | .error e => .error e
                      | .ok hdl =>
                        match pyLog (hdl : ℝ) with
                        | .error e => .error e
                        | .ok lh =>
                          match dget d "presion_sistolica" with
                          | .error e => .error e
                          | .ok presV =>
                            match pyNum presV with
                            | .error e => .error e
                            | .ok pres =>
                              match pyLog (pres : ℝ) with
                              | .error e => .error e
                              | .ok lp =>
                                match dget d "diabetes" with
                                | .error e => .error e
                                | .ok diabV =>
                                  match pyInt diabV with
                                  | .error e => .error e
                                  | .ok diab =>
                                    match dget d "fumador" with
                                    | .error e => .error e
                                    | .ok fumV =>
                                      match pyInt fumV with
                                      | .error e => .error e
                                      | .ok fum =>
                                        let x : List ℝ := [la, lc, lh, lp, (diab : ℝ), (fum : ℝ)]
                                        let beta := if is_male then FRAMINGHAM_BETA_M else FRAMINGHAM_BETA_F
                                        let mean := if is_male then FRAMINGHAM_MEAN_M else FRAMINGHAM_MEAN_F
                                        let s0 := if is_male then FRAMINGHAM_S0_M else FRAMINGHAM_S0_F
                                        let logit := npDot beta (npSub x mean)
                                        let risk := 1 - s0 ^ Real.exp logit
                                        let risk2 := min (risk * 100) 100.0
                                        .ok (round1 risk2)

/-- A per-model result dict: percent plus category, or the error marker dict
with the caught exception text (the "error" key of the Python dict). -/
structure ModelResult where
  percent : ℝ
  category : String
  error : Option String

/-- framingham_risk of calculators.py: percent and category.  Unlike the
other two models it has no try/except, so an applicability ValueError
propagates to the caller. -/
def framingham_risk (d : PDict) : Except PyErr ModelResult :=
  match framingham_points d with
  | .error e => .error e
  | .ok pct => .ok ⟨pct, categorize_risk pct, none⟩

/-- score_risk of calculators.py: catches every exception from score_lookup
and returns the error dict in its place. -/
def score_risk (d : PDict) : ModelResult :=
  match score_lookup d with
  | .ok q => ⟨(q : ℝ), categorize_risk (q : ℝ), none⟩
  | .error e => ⟨0.0, "error", some (errMsg e)⟩

/-- A published ACC/AHA coefficient set.  Optional fields model dictionary
keys that only some (sex, race) variants define. -/
structure AccCoeffs where
  ln_age : ℝ
  ln_age_sq : Option ℝ
  ln_tc : ℝ
  ln_age_ln_tc : Option ℝ
  ln_hdl : ℝ
  ln_age_ln_hdl : Option ℝ
  ln_sbp_treated : ℝ
  ln_sbp_untreated : ℝ
  smoker : ℝ
  ln_age_smoker : Option ℝ
  diabetes : ℝ

/-- Contribution of an optional coefficient: the "if key in coeffs" pattern
of the source — zero when the variant does not define the key. -/
def optTerm (o : Option ℝ) (e : ℝ) : ℝ :=
  match o with
  | some c => c * e
  | none => 0

/-- Coefficients for sex "hombre", race "blanco". -/
def ACC_COEFFS_MW : AccCoeffs :=
  { ln_age := 12.344, ln_age_sq := none, ln_tc := 11.853,
    ln_age_ln_tc := some (-2.664), ln_hdl := -7.99, ln_age_ln_hdl := some 1.769,
    ln_sbp_treated := 1.797, ln_sbp_untreated := 1.764,
    smoker := 7.837, ln_age_smoker := some (-1.795), diabetes := 0.658 }

/-- Coefficients for sex "mujer", race "blanco". -/
def ACC_COEFFS_FW : AccCoeffs :=
  { ln_age := -29.799, ln_age_sq := some 4.884, ln_tc := 13.54,
    ln_age_ln_tc := some (-3.114), ln_hdl := -13.578, ln_age_ln_hdl := some 3.149,
    ln_sbp_treated := 2.019, ln_sbp_untreated := 1.957,
    smoker := 7.574, ln_age_smoker := some (-1.665), diabetes := 0.661 }

/-- Coefficients for sex "hombre", race "afroamericano". -/
def ACC_COEFFS_MB : AccCoeffs :=
  { ln_age := 2.469, ln_age_sq := none, ln_tc := 0.302,
    ln_age_ln_tc := none, ln_hdl := -0.307, ln_age_ln_hdl := none,
    ln_sbp_treated := 1.916, ln_sbp_untreated := 1.809,
    smoker := 0.549, ln_age_smoker := none, diabetes := 0.645 }

/-- Coefficients for sex "mujer", race "afroamericano". -/
def ACC_COEFFS_FB : AccCoeffs :=
  { ln_age := 17.114, ln_age_sq := none, ln_tc := 0.94,
    ln_age_ln_tc := none, ln_hdl := -18.92, ln_age_ln_hdl := some 4.475,
    ln_sbp_treated := 29.291, ln_sbp_untreated := 27.82,
    smoker := 0.691, ln_age_smoker := none, diabetes := 0.874 }

/-- The computation shared by the four ACC/AHA variants once the coefficient
set, S0 and mean are chosen: natural logs, the accumulated weighted terms
(systolic coefficient selected by treatment status; smoker adds the
indicator term and, where defined, the age interaction; diabetes adds its
indicator), risk = 1 - S0 ** exp(terms - mean), percent rounded to one
decimal with no ceiling. -/
def accAhaFrom (c : AccCoeffs) (s0 mean : ℝ) (age tc hdl sbp : ℝ)
    (txHtn smoker diabetes : ℤ) : Except PyErr ℝ :=
  match pyLog age with
  | .error e => .error e
  | .ok lnAge =>
    match pyLog tc with
    | .error e => .error e
    | .ok lnTc =>
      match pyLog hdl with
      | .error e => .error e
      | .ok lnHdl =>
        match pyLog sbp with
        | .error e => .error e
        | .ok lnSbp =>
          let terms :=
            c.ln_age * lnAge + optTerm c.ln_age_sq (lnAge ^ 2) +
            c.ln_tc * lnTc + optTerm c.ln_age_ln_tc (lnAge * lnTc) +
            c.ln_hdl * lnHdl + optTerm c.ln_age_ln_hdl (lnAge * lnHdl) +
            (if txHtn ≠ 0 then c.ln_sbp_treated else c.ln_sbp_untreated) * lnSbp +
            (if smoker ≠ 0 then c.smoker + optTerm c.ln_age_smoker lnAge else 0) +
            (if diabetes ≠ 0 then c.diabetes else 0)
          let risk := 1 - s0 ^ Real.exp (terms - mean)
          .ok (round1 (risk * 100))

/-- The coefficient-selection if-chain of acc_aha_equation: exactly the four
published (sex, race) pairs; anything else raises ValueError. -/
def acc_aha_variant (sex race : String) (age tc hdl sbp : ℝ)
    (txHtn smoker diabetes : ℤ) : Except PyErr ℝ :=
  if sex == "hombre" && race == "blanco" then
    accAhaFrom ACC_COEFFS_MW 0.9144 61.18 age tc hdl sbp txHtn smoker diabetes
  else if sex == "mujer" && race == "blanco" then
    accAhaFrom ACC_COEFFS_FW 0.9665 (-29.18) age tc hdl sbp txHtn smoker diabetes
  else if sex == "hombre" && race == "afroamericano" then
    accAhaFrom ACC_COEFFS_MB 0.8954 19.54 age tc hdl sbp txHtn smoker diabetes
  else if sex == "mujer" && race == "afroamericano" then
    accAhaFrom ACC_COEFFS_FB 0.9533 86.61 age tc hdl sbp txHtn smoker diabetes
  else
    .error (.valueError "Combinación sexo/raza no soportada en la fórmula oficial.")

/-- acc_aha_equation of calculators.py: float conversions, strict 40-79 age
gate, the four published (sex, race) coefficient variants selected by an
if-chain — any other combination raises ValueError — then the log-linear
terms accumulated per the keys present in the variant, risk =
1 - S0 ** exp(terms - mean), in percent rounded to one decimal. -/
def acc_aha_equation (d : PDict) : Except PyErr ℝ :=
  match dget d "edad" with
  | .error e => .error e
  | .ok edadV =>
    match pyFloat edadV with
    | .error e => .error e
    | .ok age =>
      match dget d "sexo" with
      | .error e => .error e
      | .ok sexoV =>
        match pyLower sexoV with
        | .error e => .error e
        | .ok sex =>
          match pyLower (pyGet d "raza" (.str "blanco")) with
          | .error e => .error e
          | .ok race =>
            match dget d "colesterol_total" with
            | .error e => .error e
            | .ok tcV =>
              match pyFloat tcV with
              | .error e => .error e
              | .ok tc =>
                match dget d "hdl" with
                | .error e => .error e
                | .ok hdlV =>
                  match pyFloat hdlV with
                  | .error e => .error e
                  | .ok hdl =>
                    match dget d "presion_sistolica" with
                    | .error e => .error e
                    | .ok sbpV =>
                      match pyFloat sbpV with
                      | .error e => .error e
                      | .ok sbp =>
                        match dget d "tratamiento_hipertension" with
                        | .error e => .error e
                        | .ok txV =>
                          match pyInt txV with
                          | .error e => .error e
                          | .ok txHtn =>
                            match dget d "fumador" with
                            | .error e => .error e
                            | .ok smV =>
                              match pyInt smV with
                              | .error e => .error e
                              | .ok smoker =>
                                match dget d "diabetes" with
                                | .error e => .error e
                                | .ok dbV =>
                                  match pyInt dbV with
                                  | .error e => .error e
                                  | .ok diabetes =>
                                    if age < 40 ∨ age > 79 then
                                      .error (.valueError "La ecuación ACC/AHA solo es válida para pacientes de 40 a 79 años.")
                                    else
                                      acc_aha_variant sex race (age : ℝ) (tc : ℝ) (hdl : ℝ) (sbp : ℝ) txHtn smoker diabetes

/-- acc_aha_risk of calculators.py: catches every exception from
acc_aha_equation and returns the error dict in its place — an unsupported
(sex, race) combination therefore becomes a Failure value, never a raise
and never a substitute variant. -/
def acc_aha_risk (d : PDict) : ModelResult :=
  match acc_aha_equation d with
  | .ok pct => ⟨pct, categorize_risk pct, none⟩
  | .error e => ⟨0.0, "error", some (errMsg e)⟩

/-- run_models: the body of the try block of the /calculate handler; builds
the result dict in insertion order framingham, score, acc_aha.  A raise from
framingham_risk aborts the whole block (caught by the handler). -/
def runModels (method : String) (d : PDict) : Except PyErr (List (String × ModelResult)) :=
  match (if method == "framingham" || method == "all"
         then (match framingham_risk d with
               | .error e => Except.error e
               | .ok m => Except.ok [("framingham", m)])
         else Except.ok ([] : List (String × ModelResult))) with
  | .error e => .error e
  | .ok r1 =>
    let r2 := if method == "score" || method == "all" then [("score", score_risk d)] else []
    let r3 := if method == "acc-aha" || method == "all" then [("acc_aha", acc_aha_risk d)] else []
    .ok (r1 ++ r2 ++ r3)

/-- The HTTP outcomes of the /calculate/<method> handler of app.py. -/
inductive Response where
  | ok (result : List (String × ModelResult)) (warnings : List VMsg)
  | invalid (errors : List VMsg)
  | unprocessable (msg : String)
  | raised (e : PyErr)

/-- The /calculate/<method> handler of app.py: validates (400 `invalid` on a
blocking error; an exception escaping the validator propagates as `raised`),
runs the requested models inside try/except (422 `unprocessable` on a
raise), then scans the result dict and turns the first per-model error
marker into a 422 `unprocessable`; otherwise 200 `ok` with the results and
the validation warnings. -/
def calculate (method : String) (d : PDict) : Response :=
  match validate_patient_data d with
  | .error e => .raised e
  | .ok (isOk, msgs, d2) =>
    if isOk then
      match runModels method d2 with
      | .error e => .unprocessable ("Error en cálculo: " ++ errMsg e)
      | .ok results =>
        match results.find? (fun r => r.2.error.isSome) with
        | some r => .unprocessable ("Error en " ++ r.1 ++ ": " ++ r.2.error.getD "")
        | none => .ok results msgs
    else .invalid msgs

end

/- ------------------------------------------------------------------
   Claim-side definitions: concrete records and spec-modelled functions
   ------------------------------------------------------------------ -/

/-- A JSON patient record with the five required fields (edad, sexo,
colesterol_total, hdl, presion_sistolica in that order). -/
def mkPatient (a c h p : ℚ) (sexo : String) : PDict :=
  [("edad", .num a), ("sexo", .str sexo), ("colesterol_total", .num c),
   ("hdl", .num h), ("presion_sistolica", .num p)]

/-- Mid-range reference record: every required field well inside its range. -/
def basePatient : PDict := mkPatient 50 250 60 120 "hombre"

/-- basePatient with the four never-range-checked fields far outside the
bounds that RANGES declares for them. -/
def patientUnchecked : PDict :=
  basePatient ++ [("ldl", .num 500), ("presion_diastolica", .num 500),
                  ("peso", .num 500), ("altura", .num 500)]

/-- A record that passes validation (age 78 is inside 20-79) but is outside
the Framingham window 30-74. -/
def patient78 : PDict := mkPatient 78 250 60 120 "hombre"

/-- A record with a numeric HDL of zero. -/
def patientHdl0 : PDict := mkPatient 50 200 0 120 "hombre"

/-- Modelled from the spec (claim C3): the claimed discretized age key set
of the SCORE tables, including 45. -/
def claimedAgeKeys : List ℚ := [40, 45, 50, 55, 60, 65]

/-- The fields that are both required and carry a RANGES entry — the only
fields validate_patient_data ever range-checks. -/
def requiredRanges : List (String × ℚ × ℚ) :=
  [("edad", 20, 79), ("colesterol_total", 100, 400),
   ("hdl", 20, 100), ("presion_sistolica", 90, 200)]

/-- The value the boolean-coercion loop leaves under a flag key, as a
function of what the input dict held there. -/
def boolCoerceVal : Option JVal → Bool
  | none => false
  | some (.bool b) => b
  | some v => pyTruthy v

/-- basePatient after validation has written the four default flags. -/
def baseFull : PDict :=
  basePatient ++ [("fumador", .bool false), ("diabetes", .bool false),
                  ("tratamiento_hipertension", .bool false), ("estatinas", .bool false)]

/-- mkPatient after validation has written the four default flags. -/
def mkPatientFull (a c h p : ℚ) (sexo : String) : PDict :=
  mkPatient a c h p sexo ++ [("fumador", .bool false), ("diabetes", .bool false),
                             ("tratamiento_hipertension", .bool false), ("estatinas", .bool false)]

/-- The stored age-key sequence of a SCORE table for one gender. -/
def scoreAges (t : STable) (g : String) : List ℚ :=
  keysOf ((slookup t g).getD [])

/-- patient78 after validation has written the four default flags. -/
def patient78Full : PDict :=
  patient78 ++ [("fumador", .bool false), ("diabetes", .bool false),
                ("tratamiento_hipertension", .bool false), ("estatinas", .bool false)]

/-- patientUnchecked after validation has written the four default flags. -/
def patientUncheckedFull : PDict :=
  patientUnchecked ++ [("fumador", .bool false), ("diabetes", .bool false),
                       ("tratamiento_hipertension", .bool false), ("estatinas", .bool false)]

/-- Structural well-formedness of one age-level SCORE table: every age row
has a nonempty cholesterol level and every cholesterol row a nonempty
pressure level (so the nested nearest-key lookups cannot fail). -/
def wfAge (t : SAge) : Bool :=
  t.all (fun e => !e.2.isEmpty && e.2.all (fun e2 => !e2.2.isEmpty))

/-- Bool check that every cholesterol level of an age table stores exactly
the keys 4..8 and every pressure level exactly 120,140,160,180. -/
def keysOkAge (t : SAge) : Bool :=
  t.all (fun e => (keysOf e.2 == [4, 5, 6, 7, 8]) &&
    e.2.all (fun e2 => keysOf e2.2 == [120, 140, 160, 180]))

/- ------------------------------------------------------------------
   General lemmas
   ------------------------------------------------------------------ -/

/-- Gluing lemma: validate_patient_data from the values of its five parts. -/
theorem validate_eval (d : PDict) (E W ES : List VMsg) (d2 : PDict) (w2 w3 : List VMsg)
    (hR : checkRequired d requiredFields = .ok (E, W))
    (hS : checkSexo d = ES)
    (hC : coerceBools d = d2)
    (hA : checkAgePressure d2 = .ok w2)
    (hH : checkCholHdl d2 = .ok w3) :
    validate_patient_data d =
      .ok ((E ++ ES).isEmpty, if (E ++ ES).isEmpty then W ++ w2 ++ w3 else E ++ ES, d2) := by
  simp [validate_patient_data, hR, hS, hC, hA, hH]

/-- Looking a key up right after writing it yields the written value. -/
theorem dlookup_dset_self : ∀ (d : PDict) (k : String) (v : JVal),
    dlookup (dset d k v) k = some v
  | [], k, v => by simp [dset, dlookup]
  | (k1, v1) :: rest, k, v => by
    by_cases h : k1 = k
    · subst h; simp [dset, dlookup]
    · have hb : (k1 == k) = false := beq_eq_false_iff_ne.mpr h
      have hb2 : (k == k1) = false := beq_eq_false_iff_ne.mpr (Ne.symm h)
      simp [dset, hb, dlookup, hb2, dlookup_dset_self rest k v]

/-- Writing one key leaves every other key unchanged. -/
theorem dlookup_dset_ne : ∀ (d : PDict) (k k2 : String) (v : JVal), k2 ≠ k →
    dlookup (dset d k v) k2 = dlookup d k2
  | [], k, k2, v, h => by
    simp [dset, dlookup, beq_eq_false_iff_ne.mpr h]
  | (k1, v1) :: rest, k, k2, v, h => by
    by_cases h1 : k1 = k
    · subst h1
      simp [dset, dlookup, beq_eq_false_iff_ne.mpr h]
    · have hb : (k1 == k) = false := beq_eq_false_iff_ne.mpr h1
      by_cases h2 : k2 = k1
      · subst h2; simp [dset, hb, dlookup]
      · simp [dset, hb, dlookup, beq_eq_false_iff_ne.mpr h2,
          dlookup_dset_ne rest k k2 v h]

/-- After one boolean-coercion step the flag key holds boolCoerceVal of what
the dict held there. -/
theorem coerceBoolField_lookup_self (d : PDict) (bf : String) :
    dlookup (coerceBoolField d bf) bf = some (.bool (boolCoerceVal (dlookup d bf))) := by
  unfold coerceBoolField
  rcases hv : dlookup d bf with _ | v
  · simp [boolCoerceVal, hv, dlookup_dset_self]
  · rcases v with q | s | b | _ <;>
      simp [boolCoerceVal, hv, dlookup_dset_self]

/-- One boolean-coercion step leaves other keys unchanged. -/
theorem coerceBoolField_lookup_other (d : PDict) (bf k : String) (h : k ≠ bf) :
    dlookup (coerceBoolField d bf) k = dlookup d k := by
  unfold coerceBoolField
  rcases hv : dlookup d bf with _ | v
  · simp [dlookup_dset_ne d bf k _ h]
  · rcases v with q | s | b | _ <;> simp [dlookup_dset_ne d bf k _ h]

/-- The boolean-coercion loop leaves every non-flag key unchanged. -/
theorem coerceBools_lookup_other (d : PDict) (k : String) (h : k ∉ boolFields) :
    dlookup (coerceBools d) k = dlookup d k := by
  simp [boolFields] at h
  obtain ⟨h1, h2, h3, h4⟩ := h
  simp only [coerceBools, boolFields, List.foldl]
  rw [coerceBoolField_lookup_other _ _ _ h4, coerceBoolField_lookup_other _ _ _ h3,
    coerceBoolField_lookup_other _ _ _ h2, coerceBoolField_lookup_other _ _ _ h1]

/-- The boolean-coercion loop writes exactly boolCoerceVal under each flag. -/
theorem coerceBools_lookup_flag (d : PDict) (bf : String) (h : bf ∈ boolFields) :
    dlookup (coerceBools d) bf = some (.bool (boolCoerceVal (dlookup d bf))) := by
  simp only [coerceBools, boolFields, List.foldl]
  simp [boolFields] at h
  rcases h with h | h | h | h <;> subst h
  · rw [coerceBoolField_lookup_other _ _ _ (by simp),
      coerceBoolField_lookup_other _ _ _ (by simp),
      coerceBoolField_lookup_other _ _ _ (by simp),
      coerceBoolField_lookup_self]
  · rw [coerceBoolField_lookup_other _ _ _ (by simp),
      coerceBoolField_lookup_other _ _ _ (by simp),
      coerceBoolField_lookup_self,
      coerceBoolField_lookup_other _ _ _ (by simp)]
  · rw [coerceBoolField_lookup_other _ _ _ (by simp),
      coerceBoolField_lookup_self,
      coerceBoolField_lookup_other _ _ _ (by simp),
      coerceBoolField_lookup_other _ _ _ (by simp)]
  · rw [coerceBoolField_lookup_self,
      coerceBoolField_lookup_other _ _ _ (by simp),
      coerceBoolField_lookup_other _ _ _ (by simp),
      coerceBoolField_lookup_other _ _ _ (by simp)]

/-- Whenever validation returns, the dict it hands back is the input after
the boolean-coercion loop. -/
theorem validate_dict_eq (d : PDict) (isOk : Bool) (msgs : List VMsg) (d2 : PDict)
    (h : validate_patient_data d = .ok (isOk, msgs, d2)) : d2 = coerceBools d := by
  unfold validate_patient_data at h
  rcases hR : checkRequired d requiredFields with e | ⟨E, W⟩ <;> rw [hR] at h
  · simp at h
  · dsimp only at h
    rcases hA : checkAgePressure (coerceBools d) with e | w2 <;> rw [hA] at h
    · simp at h
    · rcases hH : checkCholHdl (coerceBools d) with e | w3 <;> rw [hH] at h
      · simp at h
      · simp at h
        exact h.2.2.symm

/-- The fold inside pyMinBy returns the accumulator or a list element. -/
theorem pyMinStep_foldl_mem (f : ℚ → ℚ) : ∀ (xs : List ℚ) (b : ℚ),
    xs.foldl (pyMinStep f) b ∈ b :: xs
  | [], b => by simp
  | k :: ks, b => by
    have ih := pyMinStep_foldl_mem f ks (pyMinStep f b k)
    simp only [List.foldl]
    rcases List.mem_cons.1 ih with h | h
    · rw [h]
      unfold pyMinStep
      split_ifs <;> simp
    · simp [h]

/-- The fold inside pyMinBy minimizes f over the accumulator and the list. -/
theorem pyMinStep_foldl_le (f : ℚ → ℚ) : ∀ (xs : List ℚ) (b k : ℚ), k ∈ b :: xs →
    f (xs.foldl (pyMinStep f) b) ≤ f k
  | [], b, k, hk => by
    simp at hk; simp [hk]
  | j :: js, b, k, hk => by
    have hstep : f (pyMinStep f b j) ≤ f b ∧ f (pyMinStep f b j) ≤ f j := by
      unfold pyMinStep; split_ifs with h
      · exact ⟨le_of_lt h, le_refl _⟩
      · exact ⟨le_refl _, le_of_not_lt h⟩
    simp only [List.foldl]
    rcases List.mem_cons.1 hk with h | h
    · rw [h]
      exact le_trans (pyMinStep_foldl_le f js (pyMinStep f b j) _ (by simp)) hstep.1
    · rcases List.mem_cons.1 h with h2 | h2
      · rw [h2]
        exact le_trans (pyMinStep_foldl_le f js (pyMinStep f b j) _ (by simp)) hstep.2
      · exact pyMinStep_foldl_le f js (pyMinStep f b j) k (by simp [h2])

/-- Two points at equal absolute distance from x coincide or straddle x. -/
theorem abs_sub_eq_cases (u v x : ℚ) (h : |u - x| = |v - x|) : u = v ∨ u + v = 2 * x := by
  rcases abs_eq_abs.1 h with h1 | h1
  · left; linarith
  · right; linarith

/-- On a strictly ascending list the pyMinBy fold over distance-to-x breaks
ties toward the smaller key. -/
theorem pyMinStep_foldl_tie_asc (x : ℚ) : ∀ (xs : List ℚ) (b : ℚ),
    List.Pairwise (· < ·) (b :: xs) →
    ∀ j ∈ b :: xs, |j - x| = |(xs.foldl (pyMinStep (fun k => |k - x|)) b) - x| →
      xs.foldl (pyMinStep (fun k => |k - x|)) b ≤ j
  | [], b, _, j, hj, _ => by
    simp at hj; simp [hj]
  | k :: ks, b, hp, j, hj, heq => by
    have hpk : List.Pairwise (· < ·) (k :: ks) := hp.of_cons
    have hbAll : ∀ a ∈ k :: ks, b < a := (List.pairwise_cons.1 hp).1
    have hkAll : ∀ a ∈ ks, k < a := (List.pairwise_cons.1 hpk).1
    have hpbks : List.Pairwise (· < ·) (b :: ks) := by
      refine List.pairwise_cons.2 ⟨fun a ha => hbAll a (List.mem_cons_of_mem _ ha), hpk.of_cons⟩
    simp only [List.foldl] at heq ⊢
    by_cases hbk : |k - x| < |b - x|
    · have hsk : pyMinStep (fun k => |k - x|) b k = k := by
        unfold pyMinStep; rw [if_pos hbk]
      rw [hsk] at heq ⊢
      rcases List.mem_cons.1 hj with h | h
      · subst h
        exfalso
        have hle := pyMinStep_foldl_le (fun k => |k - x|) ks k k (by simp)
        simp only at hle
        rw [← heq] at hle
        exact absurd (lt_of_le_of_lt hle hbk) (lt_irrefl _)
      · exact pyMinStep_foldl_tie_asc x ks k hpk j h heq
    · have hsk : pyMinStep (fun k => |k - x|) b k = b := by
        unfold pyMinStep; rw [if_neg hbk]
      rw [hsk] at heq ⊢
      rcases List.mem_cons.1 hj with h | h
      · exact pyMinStep_foldl_tie_asc x ks b hpbks j (by simp [h]) heq
      · rcases List.mem_cons.1 h with h2 | h2
        · subst h2
          have hres := pyMinStep_foldl_mem (fun k => |k - x|) ks b
          rcases List.mem_cons.1 hres with hrb | hrk

          · rw [hrb]
            exact le_of_lt (hbAll j (by simp))
          · exfalso
            have hkr : j < ks.foldl (pyMinStep fun k => |k - x|) b := hkAll _ hrk
            have hbr : b < ks.foldl (pyMinStep fun k => |k - x|) b :=
              hbAll _ (List.mem_cons_of_mem _ hrk)
            have hb2 : b < j := hbAll j (by simp)
            have hfr : |(ks.foldl (pyMinStep fun k => |k - x|) b) - x| ≤ |b - x| :=
              pyMinStep_foldl_le (fun k => |k - x|) ks b b (by simp)
            have hbk2 : |b - x| ≤ |j - x| := le_of_not_lt hbk
            have hfb : |b - x| = |(ks.foldl (pyMinStep fun k => |k - x|) b) - x| := by
              have := heq ▸ hbk2
              exact le_antisymm (le_trans this (le_refl _)) hfr
            rcases abs_sub_eq_cases b _ x hfb with hc | hc
            · exact absurd hc (ne_of_lt hbr)
            · rcases abs_sub_eq_cases j _ x heq with hc2 | hc2
              · exact absurd hc2 (ne_of_lt hkr)
              · have : b = j := by linarith
                exact absurd this (ne_of_lt hb2)
        · exact pyMinStep_foldl_tie_asc x ks b hpbks j (by simp [h2]) heq

/-- On a strictly descending list the pyMinBy fold over distance-to-x breaks
ties toward the larger key. -/
theorem pyMinStep_foldl_tie_desc (x : ℚ) : ∀ (xs : List ℚ) (b : ℚ),
    List.Pairwise (· > ·) (b :: xs) →
    ∀ j ∈ b :: xs, |j - x| = |(xs.foldl (pyMinStep (fun k => |k - x|)) b) - x| →
      j ≤ xs.foldl (pyMinStep (fun k => |k - x|)) b
  | [], b, _, j, hj, _ => by
    simp at hj; simp [hj]
  | k :: ks, b, hp, j, hj, heq => by
    have hpk : List.Pairwise (· > ·) (k :: ks) := hp.of_cons
    have hbAll : ∀ a ∈ k :: ks, a < b := (List.pairwise_cons.1 hp).1
    have hkAll : ∀ a ∈ ks, a < k := (List.pairwise_cons.1 hpk).1
    have hpbks : List.Pairwise (· > ·) (b :: ks) := by
      refine List.pairwise_cons.2 ⟨fun a ha => hbAll a (List.mem_cons_of_mem _ ha), hpk.of_cons⟩
    simp only [List.foldl] at heq ⊢
    by_cases hbk : |k - x| < |b - x|
    · have hsk : pyMinStep (fun k => |k - x|) b k = k := by
        unfold pyMinStep; rw [if_pos hbk]
      rw [hsk] at heq ⊢
      rcases List.mem_cons.1 hj with h | h
      · subst h
        exfalso
        have hle := pyMinStep_foldl_le (fun k => |k - x|) ks k k (by simp)
        simp only at hle
        rw [← heq] at hle
        exact absurd (lt_of_le_of_lt hle hbk) (lt_irrefl _)
      · exact pyMinStep_foldl_tie_desc x ks k hpk j h heq
    · have hsk : pyMinStep (fun k => |k - x|) b k = b := by
        unfold pyMinStep; rw [if_neg hbk]
      rw [hsk] at heq ⊢
      rcases List.mem_cons.1 hj with h | h
      · exact pyMinStep_foldl_tie_desc x ks b hpbks j (by simp [h]) heq
      · rcases List.mem_cons.1 h with h2 | h2
        · subst h2
          have hres := pyMinStep_foldl_mem (fun k => |k - x|) ks b
          rcases List.mem_cons.1 hres with hrb | hrk
          · rw [hrb]
            exact le_of_lt (hbAll j (by simp))
          · exfalso
            have hkr : ks.foldl (pyMinStep fun k => |k - x|) b < j := hkAll _ hrk
            have hbr : ks.foldl (pyMinStep fun k => |k - x|) b < b :=
              hbAll _ (List.mem_cons_of_mem _ hrk)
            have hb2 : j < b := hbAll j (by simp)
            have hfr : |(ks.foldl (pyMinStep fun k => |k - x|) b) - x| ≤ |b - x| :=
              pyMinStep_foldl_le (fun k => |k - x|) ks b b (by simp)
            have hbk2 : |b - x| ≤ |j - x| := le_of_not_lt hbk
            have hfb : |b - x| = |(ks.foldl (pyMinStep fun k => |k - x|) b) - x| := by
              have := heq ▸ hbk2
              exact le_antisymm (le_trans this (le_refl _)) hfr
            rcases abs_sub_eq_cases b _ x hfb with hc | hc
            · exact absurd hc.symm (ne_of_lt hbr)
            · rcases abs_sub_eq_cases j _ x heq with hc2 | hc2
              · exact absurd hc2.symm (ne_of_lt hkr)
              · have : b = j := by linarith
                exact absurd this.symm (ne_of_lt hb2)
        · exact pyMinStep_foldl_tie_desc x ks b hpbks j (by simp [h2]) heq

/-- pyMinBy on a nonempty list yields a member. -/
theorem pyMinBy_exists_mem (f : ℚ → ℚ) (l : List ℚ) (hne : l ≠ []) :
    ∃ m, pyMinBy f l = some m ∧ m ∈ l := by
  rcases l with _ | ⟨b, xs⟩
  · exact absurd rfl hne
  · exact ⟨_, rfl, pyMinStep_foldl_mem f xs b⟩

/-- pyMinBy over distance-to-x on a strictly ascending key list: a member,
minimal, ties resolved to the smaller key. -/
theorem pyMinBy_abs_asc (x : ℚ) (l : List ℚ) (hne : l ≠ [])
    (hp : List.Pairwise (· < ·) l) :
    ∃ m, pyMinBy (fun k => |k - x|) l = some m ∧ m ∈ l ∧
      (∀ k ∈ l, |m - x| ≤ |k - x|) ∧ (∀ k ∈ l, |k - x| = |m - x| → m ≤ k) := by
  rcases l with _ | ⟨b, xs⟩
  · exact absurd rfl hne
  · exact ⟨_, rfl, pyMinStep_foldl_mem (fun k => |k - x|) xs b,
      fun k hk => pyMinStep_foldl_le (fun k => |k - x|) xs b k hk,
      fun k hk he => pyMinStep_foldl_tie_asc x xs b hp k hk he⟩

/-- pyMinBy over distance-to-x on a strictly descending key list: a member,
minimal, ties resolved to the larger key. -/
theorem pyMinBy_abs_desc (x : ℚ) (l : List ℚ) (hne : l ≠ [])
    (hp : List.Pairwise (· > ·) l) :
    ∃ m, pyMinBy (fun k => |k - x|) l = some m ∧ m ∈ l ∧
      (∀ k ∈ l, |m - x| ≤ |k - x|) ∧ (∀ k ∈ l, |k - x| = |m - x| → k ≤ m) := by
  rcases l with _ | ⟨b, xs⟩
  · exact absurd rfl hne
  · exact ⟨_, rfl, pyMinStep_foldl_mem (fun k => |k - x|) xs b,
      fun k hk => pyMinStep_foldl_le (fun k => |k - x|) xs b k hk,
      fun k hk he => pyMinStep_foldl_tie_desc x xs b hp k hk he⟩

/-- A successful qlookup returns a stored pair. -/
theorem qlookup_mem {α : Type} : ∀ (l : List (ℚ × α)) (k : ℚ) (v : α),
    qlookup l k = some v → (k, v) ∈ l
  | [], k, v, h => by simp [qlookup] at h
  | (k1, v1) :: rest, k, v, h => by
    by_cases hk : k = k1
    · subst hk
      simp [qlookup] at h
      simp [h]
    · simp [qlookup, hk] at h
      exact List.mem_cons_of_mem _ (qlookup_mem rest k v h)

/-- qlookup succeeds on every stored key. -/
theorem qlookup_exists_of_mem_keys {α : Type} : ∀ (l : List (ℚ × α)) (k : ℚ),
    k ∈ keysOf l → ∃ v, qlookup l k = some v
  | [], k, h => by simp [keysOf] at h
  | (k1, v1) :: rest, k, h => by
    by_cases hk : k = k1
    · subst hk
      exact ⟨v1, by simp [qlookup]⟩
    · simp [keysOf] at h
      rcases h with h | h
      · exact absurd h hk
      · obtain ⟨v, hv⟩ := qlookup_exists_of_mem_keys rest k (by simpa [keysOf] using h)
        exact ⟨v, by simp [qlookup, hk, hv]⟩

/-- Rounding to one decimal is monotone. -/
theorem qround1_mono {a b : ℚ} (h : a ≤ b) : qround1 a ≤ qround1 b := by
  unfold qround1
  have hr : round (10 * a) ≤ round (10 * b) := by
    rw [round_eq, round_eq]
    exact Int.floor_mono (by linarith)
  have hq : ((round (10 * a) : ℤ) : ℚ) ≤ ((round (10 * b) : ℤ) : ℚ) := by
    exact_mod_cast hr
  linarith

/-- Rounding the ceiling itself is the identity. -/
theorem qround1_25 : qround1 25 = 25 := by
  unfold qround1
  have h : (10 : ℚ) * 25 = ((250 : ℤ) : ℚ) := by norm_num
  rw [h, round_intCast]
  norm_num

/-- The clamp-then-round tail of score_lookup never exceeds 25. -/
theorem qround1_min_le25 (v : ℚ) : qround1 (min v 25) ≤ 25 := by
  have h := qround1_mono (min_le_right v 25)
  rwa [qround1_25] at h

/- ------------------------------------------------------------------
   Claims
   ------------------------------------------------------------------ -/

/-- C5: categorize_risk is a pure step function with exactly the thresholds
percent < 5 -> low band, 5 <= percent < 10 -> moderate, 10 <= percent < 20
-> high, percent >= 20 -> very high; in particular categorize(4.9)=low,
categorize(5.0)=moderate, categorize(9.99)=moderate, categorize(10.0)=high,
categorize(19.99)=high, categorize(20.0)=very-high. -/
theorem C5_categorize_thresholds :
    (∀ p : ℝ, (p < 5 → categorize_risk p = "bajo") ∧
      (5 ≤ p → p < 10 → categorize_risk p = "moderado") ∧
      (10 ≤ p → p < 20 → categorize_risk p = "alto") ∧
      (20 ≤ p → categorize_risk p = "muy alto")) ∧
    categorize_risk 4.9 = "bajo" ∧ categorize_risk 5.0 = "moderado" ∧
    categorize_risk 9.99 = "moderado" ∧ categorize_risk 10.0 = "alto" ∧
    categorize_risk 19.99 = "alto" ∧ categorize_risk 20.0 = "muy alto" := by
  refine ⟨?_, ?_, ?_, ?_, ?_, ?_, ?_⟩
  · intro p
    unfold categorize_risk
    refine ⟨?_, ?_, ?_, ?_⟩ <;> intros <;> split_ifs <;> first | rfl | linarith
  · unfold categorize_risk
    rw [if_pos (by norm_num)]
  · unfold categorize_risk
    rw [if_neg (by norm_num), if_pos (by norm_num)]
  · unfold categorize_risk
    rw [if_neg (by norm_num), if_pos (by norm_num)]
  · unfold categorize_risk
    rw [if_neg (by norm_num), if_neg (by norm_num), if_pos (by norm_num)]
  · unfold categorize_risk
    rw [if_neg (by norm_num), if_neg (by norm_num), if_pos (by norm_num)]
  · unfold categorize_risk
    rw [if_neg (by norm_num), if_neg (by norm_num), if_neg (by norm_num)]

/-- C5 witness: the universal part applied at the concrete percent 3. -/
theorem C5_categorize_witness : categorize_risk 3 = "bajo" :=
  (C5_categorize_thresholds.1 3).1 (by norm_num)

/-- C10: a record with numeric HDL = 0 (plus a total cholesterol) makes
validate_patient_data raise an uncaught ZeroDivisionError from the
total-cholesterol/HDL ratio heuristic instead of returning an Invalid
outcome. -/
theorem C10_hdl_zero_raises :
    validate_patient_data patientHdl0 = .error .zeroDivisionError ∧
    dlookup patientHdl0 "hdl" = some (.num 0) := by
  constructor
  · have hH : checkCholHdl (coerceBools patientHdl0) = .error .zeroDivisionError := by decide
    unfold validate_patient_data
    rw [show checkRequired patientHdl0 requiredFields =
      .ok ([.outOfRange "hdl" 20 100 0], []) from by decide]
    dsimp only
    rw [show checkAgePressure (coerceBools patientHdl0) = .ok [] from by decide, hH]
  · decide

/-- C9 counterexample: validation does not leave the record unchanged — on a
valid record lacking the flag keys it returns with "fumador" (and the other
three flags) newly written. -/
theorem C9_counterexample :
    validate_patient_data basePatient = .ok (true, [], baseFull) ∧
    dlookup basePatient "fumador" = none ∧
    dlookup baseFull "fumador" = some (.bool false) ∧
    baseFull ≠ basePatient := by
  refine ⟨?_, by decide, by decide, by decide⟩
  have h := validate_eval basePatient [] [] [] baseFull [] []
    (by decide) (by decide) (by decide) (by decide)
    (by simp [checkCholHdl, baseFull, basePatient, mkPatient, dlookup, pyFloat, pyDiv]
        norm_num)
  simpa using h

/-- C9 amended: validation leaves every key other than the four boolean
flag keys unchanged; each flag key it writes — inserting false when the key
is absent, replacing a non-boolean value by its truthiness, keeping a
boolean value — exactly boolCoerceVal of what the input held. -/
theorem C9_amended_coercion (d : PDict) (isOk : Bool) (msgs : List VMsg) (d2 : PDict)
    (h : validate_patient_data d = .ok (isOk, msgs, d2)) :
    (∀ k, k ∉ boolFields → dlookup d2 k = dlookup d k) ∧
    (∀ bf ∈ boolFields, dlookup d2 bf = some (.bool (boolCoerceVal (dlookup d bf)))) := by
  have hd := validate_dict_eq d isOk msgs d2 h
  subst hd
  exact ⟨fun k hk => coerceBools_lookup_other d k hk,
    fun bf hbf => coerceBools_lookup_flag d bf hbf⟩

/-- C9 witness: the amended theorem applied to the concrete base record. -/
theorem C9_amended_witness :
    dlookup baseFull "estatinas" = some (.bool false) ∧
    dlookup baseFull "edad" = dlookup basePatient "edad" := by
  have hv : validate_patient_data basePatient = .ok (true, [], baseFull) := by
    have h := validate_eval basePatient [] [] [] baseFull [] []
      (by decide) (by decide) (by decide) (by decide)
      (by simp [checkCholHdl, baseFull, basePatient, mkPatient, dlookup, pyFloat, pyDiv]
          norm_num)
    simpa using h
  obtain ⟨hother, hflag⟩ := C9_amended_coercion basePatient true [] baseFull hv
  constructor
  · rw [hflag "estatinas" (by simp [boolFields])]
    decide
  · exact hother "edad" (by simp [boolFields])

/-- C4: a required numeric field exactly at a range bound validates as Valid
with a warning naming that field; a value strictly outside (age 81) gives
Invalid with an error citing the 20-79 range. -/
theorem C4_boundary_warning :
    (∀ f lo hi b, (f, lo, hi) ∈ requiredRanges → b = lo ∨ b = hi →
      ∃ ws d2, validate_patient_data (dset basePatient f (.num b)) = .ok (true, ws, d2) ∧
        VMsg.atLimit f b ∈ ws) ∧
    (∃ es d2, validate_patient_data (dset basePatient "edad" (.num 81)) = .ok (false, es, d2) ∧
      VMsg.outOfRange "edad" 20 79 81 ∈ es) := by
  constructor
  · intro f lo hi b hmem hb
    simp [requiredRanges] at hmem
    rcases hmem with ⟨hf, hlo, hhi⟩ | ⟨hf, hlo, hhi⟩ | ⟨hf, hlo, hhi⟩ | ⟨hf, hlo, hhi⟩ <;>
        subst hf <;> subst hlo <;> subst hhi <;> rcases hb with hb | hb <;> subst hb
    · refine ⟨[VMsg.atLimit "edad" 20], coerceBools (dset basePatient "edad" (.num 20)), ?_, by simp⟩
      have h := validate_eval (dset basePatient "edad" (.num 20)) [] [.atLimit "edad" 20] []
        (coerceBools (dset basePatient "edad" (.num 20))) [] []
        (by decide) (by decide) rfl (by decide)
        (by simp [checkCholHdl, coerceBools, boolFields, coerceBoolField, basePatient,
              mkPatient, dlookup, dset, pyFloat, pyDiv]
            norm_num)
      simpa using h
    · refine ⟨[VMsg.atLimit "edad" 79], coerceBools (dset basePatient "edad" (.num 79)), ?_, by simp⟩
      have h := validate_eval (dset basePatient "edad" (.num 79)) [] [.atLimit "edad" 79] []
        (coerceBools (dset basePatient "edad" (.num 79))) [] []
        (by decide) (by decide) rfl (by decide)
        (by simp [checkCholHdl, coerceBools, boolFields, coerceBoolField, basePatient,
              mkPatient, dlookup, dset, pyFloat, pyDiv]
            norm_num)
      simpa using h
    · refine ⟨[VMsg.atLimit "colesterol_total" 100], coerceBools (dset basePatient "colesterol_total" (.num 100)), ?_, by simp⟩
      have h := validate_eval (dset basePatient "colesterol_total" (.num 100)) [] [.atLimit "colesterol_total" 100] []
        (coerceBools (dset basePatient "colesterol_total" (.num 100))) [] []
        (by decide) (by decide) rfl (by decide)
        (by simp [checkCholHdl, coerceBools, boolFields, coerceBoolField, basePatient,
              mkPatient, dlookup, dset, pyFloat, pyDiv]
            norm_num)
      simpa using h
    · refine ⟨[VMsg.atLimit "colesterol_total" 400, VMsg.ratioHigh], coerceBools (dset basePatient "colesterol_total" (.num 400)), ?_, by simp⟩
      have h := validate_eval (dset basePatient "colesterol_total" (.num 400)) [] [.atLimit "colesterol_total" 400] []
        (coerceBools (dset basePatient "colesterol_total" (.num 400))) [] [.ratioHigh]
        (by decide) (by decide) rfl (by decide)
        (by simp [checkCholHdl, coerceBools, boolFields, coerceBoolField, basePatient,
              mkPatient, dlookup, dset, pyFloat, pyDiv]
            norm_num)
      simpa using h
    · refine ⟨[VMsg.atLimit "hdl" 20, VMsg.ratioHigh], coerceBools (dset basePatient "hdl" (.num 20)), ?_, by simp⟩
      have h := validate_eval (dset basePatient "hdl" (.num 20)) [] [.atLimit "hdl" 20] []
        (coerceBools (dset basePatient "hdl" (.num 20))) [] [.ratioHigh]
        (by decide) (by decide) rfl (by decide)
        (by simp [checkCholHdl, coerceBools, boolFields, coerceBoolField, basePatient,
              mkPatient, dlookup, dset, pyFloat, pyDiv]
            norm_num)
      simpa using h
    · refine ⟨[VMsg.atLimit "hdl" 100], coerceBools (dset basePatient "hdl" (.num 100)), ?_, by simp⟩
      have h := validate_eval (dset basePatient "hdl" (.num 100)) [] [.atLimit "hdl" 100] []
        (coerceBools (dset basePatient "hdl" (.num 100))) [] []
        (by decide) (by decide) rfl (by decide)
        (by simp [checkCholHdl, coerceBools, boolFields, coerceBoolField, basePatient,
              mkPatient, dlookup, dset, pyFloat, pyDiv]
            norm_num)
      simpa using h
    · refine ⟨[VMsg.atLimit "presion_sistolica" 90], coerceBools (dset basePatient "presion_sistolica" (.num 90)), ?_, by simp⟩
      have h := validate_eval (dset basePatient "presion_sistolica" (.num 90)) [] [.atLimit "presion_sistolica" 90] []
        (coerceBools (dset basePatient "presion_sistolica" (.num 90))) [] []
        (by decide) (by decide) rfl (by decide)
        (by simp [checkCholHdl, coerceBools, boolFields, coerceBoolField, basePatient,
              mkPatient, dlookup, dset, pyFloat, pyDiv]
            norm_num)
      simpa using h
    · refine ⟨[VMsg.atLimit "presion_sistolica" 200], coerceBools (dset basePatient "presion_sistolica" (.num 200)), ?_, by simp⟩
      have h := validate_eval (dset basePatient "presion_sistolica" (.num 200)) [] [.atLimit "presion_sistolica" 200] []
        (coerceBools (dset basePatient "presion_sistolica" (.num 200))) [] []
        (by decide) (by decide) rfl (by decide)
        (by simp [checkCholHdl, coerceBools, boolFields, coerceBoolField, basePatient,
              mkPatient, dlookup, dset, pyFloat, pyDiv]
            norm_num)
      simpa using h
  · refine ⟨[VMsg.outOfRange "edad" 20 79 81], coerceBools (dset basePatient "edad" (.num 81)),
        ?_, by simp⟩
    have h := validate_eval (dset basePatient "edad" (.num 81))
      [.outOfRange "edad" 20 79 81] [] []
      (coerceBools (dset basePatient "edad" (.num 81))) [] []
      (by decide) (by decide) rfl (by decide)
      (by simp [checkCholHdl, coerceBools, boolFields, coerceBoolField, basePatient,
            mkPatient, dlookup, dset, pyFloat, pyDiv]
          norm_num)
    simpa using h

/-- C4 witness: the boundary part applied at age = 79, the spec's scenario. -/
theorem C4_boundary_witness :
    ∃ ws d2, validate_patient_data (dset basePatient "edad" (.num 79)) = .ok (true, ws, d2) ∧
      VMsg.atLimit "edad" 79 ∈ ws :=
  C4_boundary_warning.1 "edad" 20 79 79 (by simp [requiredRanges]) (Or.inr rfl)

/-- C2 counterexample: RANGES lists 50-200 for ldl, yet a record carrying
ldl = 500 (and diastolic pressure, weight and height all at 500, far outside
their RANGES rows) validates as Valid with no messages at all — the range
loop only ever visits the five required fields. -/
theorem C2_counterexample :
    ("ldl", (50 : ℚ), (200 : ℚ)) ∈ RANGES ∧
    ¬ ((500 : ℚ) ≤ 200) ∧
    validate_patient_data patientUnchecked = .ok (true, [], patientUncheckedFull) := by
  refine ⟨by simp [RANGES], by norm_num, ?_⟩
  have h := validate_eval patientUnchecked [] [] [] patientUncheckedFull [] []
    (by decide) (by decide) (by decide) (by decide)
    (by simp [checkCholHdl, patientUncheckedFull, patientUnchecked, basePatient,
          mkPatient, dlookup, pyFloat, pyDiv]
        norm_num)
  simpa using h

/-- C2 amended: only the required numeric fields (edad, colesterol_total,
hdl, presion_sistolica) are range-enforced: a supplied value strictly
outside one of those bounds yields Invalid with a blocking error citing the
field and range (except hdl = 0, which raises ZeroDivisionError before
returning); the ldl, presion_diastolica, peso and altura rows of RANGES are
never consulted (counterexample above). -/
theorem C2_required_ranges_enforced (f : String) (lo hi v : ℚ)
    (hmem : (f, lo, hi) ∈ requiredRanges)
    (hv : v < lo ∨ hi < v) (hhdl : f = "hdl" → v ≠ 0) :
    ∃ msgs d2, validate_patient_data (dset basePatient f (.num v)) = .ok (false, msgs, d2) ∧
      VMsg.outOfRange f lo hi v ∈ msgs := by
  simp [requiredRanges] at hmem
  rcases hmem with ⟨hf, hlo, hhi⟩ | ⟨hf, hlo, hhi⟩ | ⟨hf, hlo, hhi⟩ | ⟨hf, hlo, hhi⟩ <;>
      subst hf <;> subst hlo <;> subst hhi
  · -- edad out of range
    have hno : ¬((20 : ℚ) ≤ v ∧ v ≤ 79) := by
      intro hc; rcases hv with h | h <;> linarith [hc.1, hc.2]
    have hF : checkField (dset basePatient "edad" (.num v)) "edad" =
        .ok ([.outOfRange "edad" 20 79 v], []) := by
      rw [checkField, dlookup_dset_self]
      simp only [isMissingVal, Bool.false_eq_true, if_false]
      rw [show slookup RANGES "edad" = some (20, 79) from by decide]
      simp only [pyFloat]
      rw [if_pos hno]
    have hR : checkRequired (dset basePatient "edad" (.num v)) requiredFields =
        .ok ([.outOfRange "edad" 20 79 v], []) := by
      have h2 : ∀ f2, f2 ∈ ["sexo", "colesterol_total", "hdl", "presion_sistolica"] →
          checkField (dset basePatient "edad" (.num v)) f2 = .ok ([], []) := by
        intro f2 hf2
        fin_cases hf2 <;>
          simp [checkField, basePatient, mkPatient, dset, dlookup, slookup, RANGES,
            isMissingVal, pyFloat] <;> norm_num
      simp [checkRequired, requiredFields, hF, h2 "sexo" (by simp),
        h2 "colesterol_total" (by simp), h2 "hdl" (by simp),
        h2 "presion_sistolica" (by simp)]
    have hA : checkAgePressure (coerceBools (dset basePatient "edad" (.num v))) = .ok [] := by
      simp [checkAgePressure, coerceBools, boolFields, coerceBoolField, basePatient,
        mkPatient, dset, dlookup, pyFloat]
      norm_num
    have hH : checkCholHdl (coerceBools (dset basePatient "edad" (.num v))) = .ok [] := by
      simp [checkCholHdl, coerceBools, boolFields, coerceBoolField, basePatient,
        mkPatient, dset, dlookup, pyFloat, pyDiv]
      norm_num
    refine ⟨[.outOfRange "edad" 20 79 v], coerceBools (dset basePatient "edad" (.num v)), ?_, by simp⟩
    have h := validate_eval (dset basePatient "edad" (.num v))
      [.outOfRange "edad" 20 79 v] [] []
      (coerceBools (dset basePatient "edad" (.num v))) [] []
      hR (by simp [checkSexo, basePatient, mkPatient, dset, dlookup, isValidSexVal]) rfl hA hH
    simpa using h
  · -- colesterol_total out of range
    have hno : ¬((100 : ℚ) ≤ v ∧ v ≤ 400) := by
      intro hc; rcases hv with h | h <;> linarith [hc.1, hc.2]
    have hF : checkField (dset basePatient "colesterol_total" (.num v)) "colesterol_total" =
        .ok ([.outOfRange "colesterol_total" 100 400 v], []) := by
      rw [checkField, dlookup_dset_self]
      simp only [isMissingVal, Bool.false_eq_true, if_false]
      rw [show slookup RANGES "colesterol_total" = some (100, 400) from by decide]
      simp only [pyFloat]
      rw [if_pos hno]
    have hR : checkRequired (dset basePatient "colesterol_total" (.num v)) requiredFields =
        .ok ([.outOfRange "colesterol_total" 100 400 v], []) := by
      have h2 : ∀ f2, f2 ∈ ["edad", "sexo", "hdl", "presion_sistolica"] →
          checkField (dset basePatient "colesterol_total" (.num v)) f2 = .ok ([], []) := by
        intro f2 hf2
        fin_cases hf2 <;>
          simp [checkField, basePatient, mkPatient, dset, dlookup, slookup, RANGES,
            isMissingVal, pyFloat] <;> norm_num
      simp [checkRequired, requiredFields, hF, h2 "edad" (by simp), h2 "sexo" (by simp),
        h2 "hdl" (by simp), h2 "presion_sistolica" (by simp)]
    have hA : checkAgePressure (coerceBools (dset basePatient "colesterol_total" (.num v))) =
        .ok [] := by
      simp [checkAgePressure, coerceBools, boolFields, coerceBoolField, basePatient,
        mkPatient, dset, dlookup, pyFloat]
      norm_num
    have hH : checkCholHdl (coerceBools (dset basePatient "colesterol_total" (.num v))) =
        .ok (if 5 < v / 60 then [VMsg.ratioHigh] else []) := by
      simp [checkCholHdl, coerceBools, boolFields, coerceBoolField, basePatient,
        mkPatient, dset, dlookup, pyFloat, pyDiv]
    refine ⟨[.outOfRange "colesterol_total" 100 400 v], coerceBools (dset basePatient "colesterol_total" (.num v)), ?_, by simp⟩
    have h := validate_eval (dset basePatient "colesterol_total" (.num v))
      [.outOfRange "colesterol_total" 100 400 v] [] []
      (coerceBools (dset basePatient "colesterol_total" (.num v))) []
      (if 5 < v / 60 then [VMsg.ratioHigh] else [])
      hR (by simp [checkSexo, basePatient, mkPatient, dset, dlookup, isValidSexVal]) rfl hA hH
    simpa using h
  · -- hdl out of range
    have hv0 : v ≠ 0 := hhdl rfl
    have hno : ¬((20 : ℚ) ≤ v ∧ v ≤ 100) := by
      intro hc; rcases hv with h | h <;> linarith [hc.1, hc.2]
    have hF : checkField (dset basePatient "hdl" (.num v)) "hdl" =
        .ok ([.outOfRange "hdl" 20 100 v], []) := by
      rw [checkField, dlookup_dset_self]
      simp only [isMissingVal, Bool.false_eq_true, if_false]
      rw [show slookup RANGES "hdl" = some (20, 100) from by decide]
      simp only [pyFloat]
      rw [if_pos hno]
    have hR : checkRequired (dset basePatient "hdl" (.num v)) requiredFields =
        .ok ([.outOfRange "hdl" 20 100 v], []) := by
      have h2 : ∀ f2, f2 ∈ ["edad", "sexo", "colesterol_total", "presion_sistolica"] →
          checkField (dset basePatient "hdl" (.num v)) f2 = .ok ([], []) := by
        intro f2 hf2
        fin_cases hf2 <;>
          simp [checkField, basePatient, mkPatient, dset, dlookup, slookup, RANGES,
            isMissingVal, pyFloat] <;> norm_num
      simp [checkRequired, requiredFields, hF, h2 "edad" (by simp), h2 "sexo" (by simp),
        h2 "colesterol_total" (by simp), h2 "presion_sistolica" (by simp)]
    have hA : checkAgePressure (coerceBools (dset basePatient "hdl" (.num v))) = .ok [] := by
      simp [checkAgePressure, coerceBools, boolFields, coerceBoolField, basePatient,
        mkPatient, dset, dlookup, pyFloat]
      norm_num
    have hH : checkCholHdl (coerceBools (dset basePatient "hdl" (.num v))) =
        .ok (if 5 < 250 / v then [VMsg.ratioHigh] else []) := by
      simp [checkCholHdl, coerceBools, boolFields, coerceBoolField, basePatient,
        mkPatient, dset, dlookup, pyFloat, pyDiv, hv0]
    refine ⟨[.outOfRange "hdl" 20 100 v], coerceBools (dset basePatient "hdl" (.num v)), ?_, by simp⟩
    have h := validate_eval (dset basePatient "hdl" (.num v))
      [.outOfRange "hdl" 20 100 v] [] []
      (coerceBools (dset basePatient "hdl" (.num v))) []
      (if 5 < 250 / v then [VMsg.ratioHigh] else [])
      hR (by simp [checkSexo, basePatient, mkPatient, dset, dlookup, isValidSexVal]) rfl hA hH
    simpa using h
  · -- presion_sistolica out of range
    have hno : ¬((90 : ℚ) ≤ v ∧ v ≤ 200) := by
      intro hc; rcases hv with h | h <;> linarith [hc.1, hc.2]
    have hF : checkField (dset basePatient "presion_sistolica" (.num v)) "presion_sistolica" =
        .ok ([.outOfRange "presion_sistolica" 90 200 v], []) := by
      rw [checkField, dlookup_dset_self]
      simp only [isMissingVal, Bool.false_eq_true, if_false]
      rw [show slookup RANGES "presion_sistolica" = some (90, 200) from by decide]
      simp only [pyFloat]
      rw [if_pos hno]
    have hR : checkRequired (dset basePatient "presion_sistolica" (.num v)) requiredFields =
        .ok ([.outOfRange "presion_sistolica" 90 200 v], []) := by
      have h2 : ∀ f2, f2 ∈ ["edad", "sexo", "colesterol_total", "hdl"] →
          checkField (dset basePatient "presion_sistolica" (.num v)) f2 = .ok ([], []) := by
        intro f2 hf2
        fin_cases hf2 <;>
          simp [checkField, basePatient, mkPatient, dset, dlookup, slookup, RANGES,
            isMissingVal, pyFloat] <;> norm_num
      simp [checkRequired, requiredFields, hF, h2 "edad" (by simp), h2 "sexo" (by simp),
        h2 "colesterol_total" (by simp), h2 "hdl" (by simp)]
    have hA : checkAgePressure (coerceBools (dset basePatient "presion_sistolica" (.num v))) =
        .ok ((if (50 : ℚ) < 40 ∧ v > 140 then [VMsg.pressureAge] else []) ++
          (if (50 : ℚ) > 65 ∧ v > 130 then [VMsg.pressureAge] else [])) := by
      simp [checkAgePressure, coerceBools, boolFields, coerceBoolField, basePatient,
        mkPatient, dset, dlookup, pyFloat]
    have hA2 : checkAgePressure (coerceBools (dset basePatient "presion_sistolica" (.num v))) =
        .ok [] := by
      rw [hA]
      norm_num
    have hH : checkCholHdl (coerceBools (dset basePatient "presion_sistolica" (.num v))) =
        .ok [] := by
      simp [checkCholHdl, coerceBools, boolFields, coerceBoolField, basePatient,
        mkPatient, dset, dlookup, pyFloat, pyDiv]
      norm_num
    refine ⟨[.outOfRange "presion_sistolica" 90 200 v], coerceBools (dset basePatient "presion_sistolica" (.num v)), ?_, by simp⟩
    have h := validate_eval (dset basePatient "presion_sistolica" (.num v))
      [.outOfRange "presion_sistolica" 90 200 v] [] []
      (coerceBools (dset basePatient "presion_sistolica" (.num v))) [] []
      hR (by simp [checkSexo, basePatient, mkPatient, dset, dlookup, isValidSexVal]) rfl hA2 hH
    simpa using h

/-- C2 witness: the amended theorem at the concrete out-of-range value
ldl-free edad = 500. -/
theorem C2_required_ranges_witness :
    ∃ msgs d2, validate_patient_data (dset basePatient "edad" (.num 500)) =
      .ok (false, msgs, d2) ∧ VMsg.outOfRange "edad" 20 79 500 ∈ msgs :=
  C2_required_ranges_enforced "edad" 20 79 500 (by simp [requiredRanges])
    (Or.inr (by norm_num)) (fun h => by simp at h)

/-- C3 counterexample: the SCORE age keys do not include 45, and the age
bucket chosen for the tie age 45 differs between the low-risk table (40,
toward the smaller stored key) and the high-risk table (50, toward the
larger, because its age keys are stored descending); at age 44 the code
picks 40 while the claimed key set would make 45 the nearest. -/
theorem C3_counterexample :
    scoreAges SCORE_TABLE_LOW "H" = [40, 50, 55, 60, 65] ∧
    (45 : ℚ) ∉ scoreAges SCORE_TABLE_LOW "H" ∧
    pyMinBy (fun k => |k - 44|) claimedAgeKeys = some 45 ∧
    pyMinBy (fun k => |k - 44|) (scoreAges SCORE_TABLE_LOW "H") = some 40 ∧
    pyMinBy (fun k => |k - 45|) (scoreAges SCORE_TABLE_LOW "H") = some 40 ∧
    pyMinBy (fun k => |k - 45|) (scoreAges SCORE_TABLE_HIGH "H") = some 50 ∧
    (40 : ℚ) ≠ 45 ∧ (40 : ℚ) ≠ 50 := by
  have hlow : scoreAges SCORE_TABLE_LOW "H" = [40, 50, 55, 60, 65] := by
    simp [scoreAges, keysOf, slookup, SCORE_TABLE_LOW]
  have hhigh : scoreAges SCORE_TABLE_HIGH "H" = [65, 60, 55, 50, 40] := by
    simp [scoreAges, keysOf, slookup, SCORE_TABLE_HIGH]
  refine ⟨hlow, ?_, ?_, ?_, ?_, ?_, by norm_num, by norm_num⟩
  · rw [hlow]; norm_num
  · norm_num [pyMinBy, pyMinStep, claimedAgeKeys, abs_of_nonneg, abs_of_nonpos, abs_sub_comm]
  · rw [hlow]
    norm_num [pyMinBy, pyMinStep, abs_of_nonneg, abs_of_nonpos, abs_sub_comm]
  · rw [hlow]
    norm_num [pyMinBy, pyMinStep, abs_of_nonneg, abs_of_nonpos, abs_sub_comm]
  · rw [hhigh]
    norm_num [pyMinBy, pyMinStep, abs_of_nonneg, abs_of_nonpos, abs_sub_comm]

/-- Propositional reading of keysOkAge. -/
theorem keysOkAge_spec (t : SAge) (h : keysOkAge t = true) :
    ∀ e ∈ t, keysOf e.2 = [4, 5, 6, 7, 8] ∧
      ∀ e2 ∈ e.2, keysOf e2.2 = [120, 140, 160, 180] := by
  intro e he
  rw [keysOkAge, List.all_eq_true] at h
  have h2 := h e he
  simp only [Bool.and_eq_true, List.all_eq_true, beq_iff_eq] at h2
  exact ⟨h2.1, fun e2 he2 => h2.2 e2 he2⟩

/-- C3 amended: the stored age keys are 40,50,55,60,65 (ascending) in the
low-risk table and 65,60,55,50,40 (descending) in the high-risk table for
both sexes; nearest-key selection by absolute difference resolves age ties
toward the smaller key on the low-risk keys but toward the larger key on the
high-risk keys; every cholesterol level stores keys 4..8 and every pressure
level 120,140,160,180 (ascending in both tiers), where selection resolves
ties toward the smaller key; the smoker boolean indexes last. -/
theorem C3_nearest_bucket_selection :
    (scoreAges SCORE_TABLE_LOW "H" = [40, 50, 55, 60, 65] ∧
     scoreAges SCORE_TABLE_LOW "M" = [40, 50, 55, 60, 65] ∧
     scoreAges SCORE_TABLE_HIGH "H" = [65, 60, 55, 50, 40] ∧
     scoreAges SCORE_TABLE_HIGH "M" = [65, 60, 55, 50, 40]) ∧
    (∀ x : ℚ, ∃ m, pyMinBy (fun k => |k - x|) [40, 50, 55, 60, 65] = some m ∧
      m ∈ [(40 : ℚ), 50, 55, 60, 65] ∧
      (∀ k ∈ [(40 : ℚ), 50, 55, 60, 65], |m - x| ≤ |k - x|) ∧
      (∀ k ∈ [(40 : ℚ), 50, 55, 60, 65], |k - x| = |m - x| → m ≤ k)) ∧
    (∀ x : ℚ, ∃ m, pyMinBy (fun k => |k - x|) [65, 60, 55, 50, 40] = some m ∧
      m ∈ [(65 : ℚ), 60, 55, 50, 40] ∧
      (∀ k ∈ [(65 : ℚ), 60, 55, 50, 40], |m - x| ≤ |k - x|) ∧
      (∀ k ∈ [(65 : ℚ), 60, 55, 50, 40], |k - x| = |m - x| → k ≤ m)) ∧
    (∀ tier ∈ [SCORE_TABLE_LOW, SCORE_TABLE_HIGH], ∀ g ∈ ["H", "M"],
      ∀ e ∈ (slookup tier g).getD [], keysOf e.2 = [4, 5, 6, 7, 8] ∧
        ∀ e2 ∈ e.2, keysOf e2.2 = [120, 140, 160, 180]) ∧
    (∀ x : ℚ, ∃ m, pyMinBy (fun k => |k - x|) [4, 5, 6, 7, 8] = some m ∧
      m ∈ [(4 : ℚ), 5, 6, 7, 8] ∧
      (∀ k ∈ [(4 : ℚ), 5, 6, 7, 8], |m - x| ≤ |k - x|) ∧
      (∀ k ∈ [(4 : ℚ), 5, 6, 7, 8], |k - x| = |m - x| → m ≤ k)) ∧
    (∀ x : ℚ, ∃ m, pyMinBy (fun k => |k - x|) [120, 140, 160, 180] = some m ∧
      m ∈ [(120 : ℚ), 140, 160, 180] ∧
      (∀ k ∈ [(120 : ℚ), 140, 160, 180], |m - x| ≤ |k - x|) ∧
      (∀ k ∈ [(120 : ℚ), 140, 160, 180], |k - x| = |m - x| → m ≤ k)) := by
  refine ⟨⟨?_, ?_, ?_, ?_⟩, ?_, ?_, ?_, ?_, ?_⟩
  · simp [scoreAges, keysOf, slookup, SCORE_TABLE_LOW]
  · simp [scoreAges, keysOf, slookup, SCORE_TABLE_LOW]
  · simp [scoreAges, keysOf, slookup, SCORE_TABLE_HIGH]
  · simp [scoreAges, keysOf, slookup, SCORE_TABLE_HIGH]
  · intro x
    exact pyMinBy_abs_asc x [40, 50, 55, 60, 65] (by simp)
      (by norm_num [List.pairwise_cons])
  · intro x
    exact pyMinBy_abs_desc x [65, 60, 55, 50, 40] (by simp)
      (by norm_num [List.pairwise_cons])
  · intro tier htier g hg
    simp only [List.mem_cons, List.not_mem_nil, or_false] at htier hg
    rcases htier with rfl | rfl <;> rcases hg with rfl | rfl <;>
      exact keysOkAge_spec _ rfl
  · intro x
    exact pyMinBy_abs_asc x [4, 5, 6, 7, 8] (by simp)
      (by norm_num [List.pairwise_cons])
  · intro x
    exact pyMinBy_abs_asc x [120, 140, 160, 180] (by simp)
      (by norm_num [List.pairwise_cons])

/-- C3 witness: the low-risk age characterization applied at age 44,
discharging the list-membership hypothesis at the key 50. -/
theorem C3_nearest_witness :
    ∃ m, pyMinBy (fun k => |k - (44 : ℚ)|) [40, 50, 55, 60, 65] = some m ∧
      |m - 44| ≤ |(50 : ℚ) - 44| := by
  obtain ⟨m, h1, _, h3, _⟩ := C3_nearest_bucket_selection.2.1 44
  exact ⟨m, h1, h3 50 (by norm_num)⟩

/-- A list with isEmpty false is not the empty list. -/
theorem ne_nil_of_isEmpty_false {α : Type} (l : List α) (h : l.isEmpty = false) :
    l ≠ [] := by
  cases l
  · simp at h
  · simp

/-- Unfolding of the Bool well-formedness check into the propositional form
used by the table-walk lemma. -/
theorem wfAge_spec (t : SAge) (h : wfAge t = true) :
    ∀ e ∈ t, e.2 ≠ [] ∧ ∀ e2 ∈ e.2, e2.2 ≠ [] := by
  intro e he
  rw [wfAge, List.all_eq_true] at h
  have h2 := h e he
  simp only [Bool.and_eq_true, List.all_eq_true] at h2
  refine ⟨ne_nil_of_isEmpty_false _ (by simpa using h2.1), ?_⟩
  intro e2 he2
  exact ne_nil_of_isEmpty_false _ (by simpa using h2.2 e2 he2)

/-- The SCORE table walk always succeeds on a structurally well-formed table
and produces the clamped-and-rounded cell value. -/
theorem score_from_table_ok (d : PDict) (tbl : SAge) (edad c p : ℚ) (b : Bool)
    (hChol : dlookup d "colesterol_total" = some (.num c))
    (hPres : dlookup d "presion_sistolica" = some (.num p))
    (hFum : dlookup d "fumador" = some (.bool b))
    (hne0 : tbl.isEmpty = false)
    (hwf0 : wfAge tbl = true) :
    ∃ v, score_from_table d tbl edad = .ok (qround1 (min v 25)) := by
  have hne : tbl ≠ [] := ne_nil_of_isEmpty_false tbl hne0
  have hwf := wfAge_spec tbl hwf0
  obtain ⟨A, hA, hAmem⟩ := pyMinBy_exists_mem (fun k => |k - edad|) (keysOf tbl)
    (by simpa [keysOf] using hne)
  obtain ⟨tblA, hTA⟩ := qlookup_exists_of_mem_keys tbl A hAmem
  have hmemA := qlookup_mem tbl A tblA hTA
  obtain ⟨hAne, hwfA⟩ := hwf _ hmemA
  obtain ⟨C, hC, hCmem⟩ := pyMinBy_exists_mem (fun k => |k - c / 38.67|) (keysOf tblA)
    (by simpa [keysOf] using hAne)
  obtain ⟨tblC, hTC⟩ := qlookup_exists_of_mem_keys tblA C hCmem
  have hmemC := qlookup_mem tblA C tblC hTC
  have hCne := hwfA _ hmemC
  obtain ⟨P, hP, hPmem⟩ := pyMinBy_exists_mem (fun k => |k - p|) (keysOf tblC)
    (by simpa [keysOf] using hCne)
  obtain ⟨cell, hCell⟩ := qlookup_exists_of_mem_keys tblC P hPmem
  refine ⟨if b then cell.2 else cell.1, ?_⟩
  simp only [score_from_table, dget, hChol, hPres, hFum, pyNum, hA, hTA, hC, hTC, hP, hCell]

/-- C6: for every record with the SCORE inputs present and age in [40,65],
score_lookup succeeds (for either region tier and any sex string) and the
returned percent never exceeds 25 — the table value is clamped at 25 before
rounding. -/
theorem C6_score_le_25 (d : PDict) (a c p : ℚ) (s : String) (b : Bool)
    (hEdad : dlookup d "edad" = some (.num a)) (h40 : 40 ≤ a) (h65 : a ≤ 65)
    (hSexo : dlookup d "sexo" = some (.str s))
    (hChol : dlookup d "colesterol_total" = some (.num c))
    (hPres : dlookup d "presion_sistolica" = some (.num p))
    (hFum : dlookup d "fumador" = some (.bool b)) :
    ∃ q, score_lookup d = .ok q ∧ q ≤ 25 := by
  have hage : ¬(a < 40 ∨ a > 65) := by
    push_neg; exact ⟨by linarith, by linarith⟩
  simp only [score_lookup, dget, hEdad, pyNum, hSexo, pyLower, if_neg hage]
  rcases hgender : (strLower s == "hombre") with _ | _ <;>
    rcases hregion : isAltoVal (pyGet d "region_riesgo" (.str "bajo")) with _ | _
  · simp only [hgender, hregion, Bool.false_eq_true, if_false]
    rcases hTBL : slookup SCORE_TABLE_LOW "M" with _ | tbl
    · exfalso; revert hTBL; simp [slookup]
    · have h2 : tbl = (slookup SCORE_TABLE_LOW "M").getD [] := by rw [hTBL]; rfl
      have hemp : tbl.isEmpty = false := by rw [h2]; simp [slookup]
      have hw : wfAge tbl = true := by rw [h2]; simp [slookup, wfAge]
      obtain ⟨v, hv⟩ := score_from_table_ok d tbl a c p b hChol hPres hFum hemp hw
      exact ⟨_, hv, qround1_min_le25 v⟩
  · simp only [hgender, hregion, Bool.false_eq_true, if_false, if_true]
    rcases hTBL : slookup SCORE_TABLE_HIGH "M" with _ | tbl
    · exfalso; revert hTBL; simp [slookup]
    · have h2 : tbl = (slookup SCORE_TABLE_HIGH "M").getD [] := by rw [hTBL]; rfl
      have hemp : tbl.isEmpty = false := by rw [h2]; simp [slookup]
      have hw : wfAge tbl = true := by rw [h2]; simp [slookup, wfAge]
      obtain ⟨v, hv⟩ := score_from_table_ok d tbl a c p b hChol hPres hFum hemp hw
      exact ⟨_, hv, qround1_min_le25 v⟩
  · simp only [hgender, hregion, Bool.false_eq_true, if_false, if_true]
    rcases hTBL : slookup SCORE_TABLE_LOW "H" with _ | tbl
    · exfalso; revert hTBL; simp [slookup]
    · have h2 : tbl = (slookup SCORE_TABLE_LOW "H").getD [] := by rw [hTBL]; rfl
      have hemp : tbl.isEmpty = false := by rw [h2]; simp [slookup]
      have hw : wfAge tbl = true := by rw [h2]; simp [slookup, wfAge]
      obtain ⟨v, hv⟩ := score_from_table_ok d tbl a c p b hChol hPres hFum hemp hw
      exact ⟨_, hv, qround1_min_le25 v⟩
  · simp only [hgender, hregion, if_true]
    rcases hTBL : slookup SCORE_TABLE_HIGH "H" with _ | tbl
    · exfalso; revert hTBL; simp [slookup]
    · have h2 : tbl = (slookup SCORE_TABLE_HIGH "H").getD [] := by rw [hTBL]; rfl
      have hemp : tbl.isEmpty = false := by rw [h2]; simp [slookup]
      have hw : wfAge tbl = true := by rw [h2]; simp [slookup, wfAge]
      obtain ⟨v, hv⟩ := score_from_table_ok d tbl a c p b hChol hPres hFum hemp hw
      exact ⟨_, hv, qround1_min_le25 v⟩

/-- C6 witness: the spec's end-to-end example record — age 55, male, total
cholesterol 220, HDL 45, systolic 145, smoker — on the low-risk table. -/
theorem C6_score_witness :
    ∃ q, score_lookup (mkPatient 55 220 45 145 "hombre" ++ [("fumador", .bool true)]) =
      .ok q ∧ q ≤ 25 :=
  C6_score_le_25 (mkPatient 55 220 45 145 "hombre" ++ [("fumador", .bool true)])
    55 220 145 "hombre" true (by decide) (by norm_num) (by norm_num)
    (by decide) (by decide) (by decide) (by decide)

/-- Rounding a real in (0, 100] to one decimal stays within [0, 100]. -/
theorem round1_bounds (y : ℝ) (h0 : 0 < y) (h100 : y ≤ 100) :
    0 ≤ round1 y ∧ round1 y ≤ 100 := by
  have hmono : ∀ u v : ℝ, u ≤ v → round u ≤ round v := by
    intro u v h
    rw [round_eq, round_eq]
    exact Int.floor_mono (by linarith)
  unfold round1
  constructor
  · have h1 : round (0 : ℝ) ≤ round (10 * y) := hmono 0 (10 * y) (by linarith)
    rw [round_zero] at h1
    have h2 : (0 : ℝ) ≤ ((round (10 * y) : ℤ) : ℝ) := by exact_mod_cast h1
    linarith
  · have h1 : round (10 * y) ≤ round (((1000 : ℤ) : ℝ)) := hmono _ _ (by push_cast; linarith)
    rw [round_intCast] at h1
    have h2 : ((round (10 * y) : ℤ) : ℝ) ≤ 1000 := by exact_mod_cast h1
    linarith

/-- The clamped Framingham percentage is within [0, 100] for any logit,
because S0 lies in (0,1) and the exponent exp(logit) is positive. -/
theorem framingham_core_bounds (s0 L : ℝ) (h0 : 0 < s0) (h1 : s0 < 1) :
    0 ≤ round1 (min ((1 - s0 ^ Real.exp L) * 100) 100.0) ∧
    round1 (min ((1 - s0 ^ Real.exp L) * 100) 100.0) ≤ 100 := by
  have hp0 : 0 < s0 ^ Real.exp L := Real.rpow_pos_of_pos h0 _
  have hp1 : s0 ^ Real.exp L < 1 := Real.rpow_lt_one (le_of_lt h0) h1 (Real.exp_pos L)
  have h100 : (100.0 : ℝ) = 100 := by norm_num
  have hy0 : 0 < min ((1 - s0 ^ Real.exp L) * 100) 100.0 := by
    rw [h100]
    apply lt_min
    · nlinarith
    · norm_num
  have hy1 : min ((1 - s0 ^ Real.exp L) * 100) 100.0 ≤ 100 := by
    rw [h100]
    exact min_le_right _ _
  exact round1_bounds _ hy0 hy1

/-- framingham_points succeeds on a record holding its six inputs with age
inside the 30-74 window and positive continuous covariates, yielding the
clamped-and-rounded percentage for the sex-selected constants. -/
theorem framingham_points_ok (d : PDict) (a c h p : ℚ) (s : String) (db fm : Bool)
    (hEdad : dlookup d "edad" = some (.num a)) (h30 : 30 ≤ a) (h74 : a ≤ 74)
    (hSexo : dlookup d "sexo" = some (.str s))
    (hChol : dlookup d "colesterol_total" = some (.num c)) (hc : 0 < c)
    (hHdl : dlookup d "hdl" = some (.num h)) (hh : 0 < h)
    (hPres : dlookup d "presion_sistolica" = some (.num p)) (hp : 0 < p)
    (hDiab : dlookup d "diabetes" = some (.bool db))
    (hFum : dlookup d "fumador" = some (.bool fm)) :
    ∃ L s0, framingham_points d =
      .ok (round1 (min ((1 - s0 ^ Real.exp L) * 100) 100.0)) ∧
      (s0 = FRAMINGHAM_S0_M ∨ s0 = FRAMINGHAM_S0_F) := by
  have hage : ¬(a < 30 ∨ a > 74) := by
    push_neg; exact ⟨by linarith, by linarith⟩
  have ha0 : ¬((a : ℝ) ≤ 0) := by
    push_neg; exact_mod_cast lt_of_lt_of_le (by norm_num : (0 : ℚ) < 30) h30
  have hc0 : ¬((c : ℝ) ≤ 0) := by push_neg; exact_mod_cast hc
  have hh0 : ¬((h : ℝ) ≤ 0) := by push_neg; exact_mod_cast hh
  have hp0 : ¬((p : ℝ) ≤ 0) := by push_neg; exact_mod_cast hp
  simp only [framingham_points, dget, hEdad, pyNum, if_neg hage, hSexo, pyLower,
    hChol, hHdl, hPres, hDiab, hFum, pyInt, pyLog, ha0, hc0, hh0, hp0,
    Bool.false_eq_true, if_false]
  rcases hg : (strLower s == "hombre") with _ | _
  · simp only [hg, Bool.false_eq_true, if_false]
    exact ⟨_, FRAMINGHAM_S0_F, rfl, Or.inr rfl⟩
  · simp only [hg, if_true]
    exact ⟨_, FRAMINGHAM_S0_M, rfl, Or.inl rfl⟩

/-- C7: for every record with the Framingham inputs present, age in the
30-74 window and positive age, cholesterol, HDL and systolic pressure,
framingham_points succeeds and returns a percent within [0, 100] — the risk
fraction 1 - S0 ** exp(logit) lies in (0,1) since S0 is in (0,1) and
exp(logit) > 0, and the percentage is clamped at 100 and rounded. -/
theorem C7_framingham_in_range (d : PDict) (a c h p : ℚ) (s : String) (db fm : Bool)
    (hEdad : dlookup d "edad" = some (.num a)) (h30 : 30 ≤ a) (h74 : a ≤ 74)
    (hSexo : dlookup d "sexo" = some (.str s))
    (hChol : dlookup d "colesterol_total" = some (.num c)) (hc : 0 < c)
    (hHdl : dlookup d "hdl" = some (.num h)) (hh : 0 < h)
    (hPres : dlookup d "presion_sistolica" = some (.num p)) (hp : 0 < p)
    (hDiab : dlookup d "diabetes" = some (.bool db))
    (hFum : dlookup d "fumador" = some (.bool fm)) :
    ∃ r, framingham_points d = .ok r ∧ 0 ≤ r ∧ r ≤ 100 := by
  obtain ⟨L, s0, hok, hs0⟩ := framingham_points_ok d a c h p s db fm
    hEdad h30 h74 hSexo hChol hc hHdl hh hPres hp hDiab hFum
  have hb : 0 < s0 ∧ s0 < 1 := by
    rcases hs0 with h | h <;> subst h <;>
      constructor <;> norm_num [FRAMINGHAM_S0_M, FRAMINGHAM_S0_F]
  obtain ⟨hlo, hhi⟩ := framingham_core_bounds s0 L hb.1 hb.2
  exact ⟨_, hok, hlo, hhi⟩

/-- C7 witness: the theorem applied to a concrete mid-range male record. -/
theorem C7_framingham_witness :
    ∃ r, framingham_points (mkPatient 50 250 60 120 "hombre" ++
      [("diabetes", .bool false), ("fumador", .bool true)]) = .ok r ∧ 0 ≤ r ∧ r ≤ 100 :=
  C7_framingham_in_range
    (mkPatient 50 250 60 120 "hombre" ++ [("diabetes", .bool false), ("fumador", .bool true)])
    50 250 60 120 "hombre" false true
    (by decide) (by norm_num) (by norm_num) (by decide) (by decide) (by norm_num)
    (by decide) (by norm_num) (by decide) (by norm_num) (by decide) (by decide)

/-- C8: for every record with the ACC/AHA inputs present and age in
[40,79], a (sex, race) combination outside the four supported variants makes
acc_aha_risk return the per-model error dict carrying the human-readable
unsupported-combination reason — the caught ValueError — rather than
raising, and no variant's coefficients are ever substituted (the result is
exactly the error marker, percent 0). -/
theorem C8_unsupported_combo (d : PDict) (a c h p : ℚ) (s rz : String)
    (tx sm db : Bool)
    (hEdad : dlookup d "edad" = some (.num a)) (h40 : 40 ≤ a) (h79 : a ≤ 79)
    (hSexo : dlookup d "sexo" = some (.str s))
    (hRaza : pyGet d "raza" (.str "blanco") = .str rz)
    (hChol : dlookup d "colesterol_total" = some (.num c))
    (hHdl : dlookup d "hdl" = some (.num h))
    (hPres : dlookup d "presion_sistolica" = some (.num p))
    (hTx : dlookup d "tratamiento_hipertension" = some (.bool tx))
    (hFum : dlookup d "fumador" = some (.bool sm))
    (hDiab : dlookup d "diabetes" = some (.bool db))
    (hcombo : ¬((strLower s = "hombre" ∧ strLower rz = "blanco") ∨
                (strLower s = "mujer" ∧ strLower rz = "blanco") ∨
                (strLower s = "hombre" ∧ strLower rz = "afroamericano") ∨
                (strLower s = "mujer" ∧ strLower rz = "afroamericano"))) :
    acc_aha_risk d =
      ⟨0.0, "error", some "Combinación sexo/raza no soportada en la fórmula oficial."⟩ := by
  have hage : ¬(a < 40 ∨ a > 79) := by
    push_neg; exact ⟨by linarith, by linarith⟩
  have h1 : (strLower s == "hombre" && strLower rz == "blanco") = false := by
    rw [Bool.and_eq_false_iff]
    by_cases hs : strLower s = "hombre"
    · right
      rw [beq_eq_false_iff_ne]
      exact fun hr => hcombo (Or.inl ⟨hs, hr⟩)
    · left
      rw [beq_eq_false_iff_ne]
      exact hs
  have h2 : (strLower s == "mujer" && strLower rz == "blanco") = false := by
    rw [Bool.and_eq_false_iff]
    by_cases hs : strLower s = "mujer"
    · right
      rw [beq_eq_false_iff_ne]
      exact fun hr => hcombo (Or.inr (Or.inl ⟨hs, hr⟩))
    · left
      rw [beq_eq_false_iff_ne]
      exact hs
  have h3 : (strLower s == "hombre" && strLower rz == "afroamericano") = false := by
    rw [Bool.and_eq_false_iff]
    by_cases hs : strLower s = "hombre"
    · right
      rw [beq_eq_false_iff_ne]
      exact fun hr => hcombo (Or.inr (Or.inr (Or.inl ⟨hs, hr⟩)))
    · left
      rw [beq_eq_false_iff_ne]
      exact hs
  have h4 : (strLower s == "mujer" && strLower rz == "afroamericano") = false := by
    rw [Bool.and_eq_false_iff]
    by_cases hs : strLower s = "mujer"
    · right
      rw [beq_eq_false_iff_ne]
      exact fun hr => hcombo (Or.inr (Or.inr (Or.inr ⟨hs, hr⟩)))
    · left
      rw [beq_eq_false_iff_ne]
      exact hs
  have heq : acc_aha_equation d =
      .error (.valueError "Combinación sexo/raza no soportada en la fórmula oficial.") := by
    simp only [acc_aha_equation, dget, hEdad, pyFloat, hSexo, pyLower, hRaza,
      hChol, hHdl, hPres, hTx, hFum, hDiab, pyInt, if_neg hage,
      acc_aha_variant, h1, h2, h3, h4, Bool.false_eq_true, if_false]
  simp only [acc_aha_risk, heq, errMsg]

/-- C8 witness: the theorem applied to a concrete record with sex "otro"
and no race key (so race defaults to "blanco"). -/
theorem C8_unsupported_witness :
    acc_aha_risk (mkPatient 50 250 60 120 "otro" ++
      [("tratamiento_hipertension", .bool false), ("fumador", .bool false),
       ("diabetes", .bool false)]) =
      ⟨0.0, "error", some "Combinación sexo/raza no soportada en la fórmula oficial."⟩ :=
  C8_unsupported_combo
    (mkPatient 50 250 60 120 "otro" ++
      [("tratamiento_hipertension", .bool false), ("fumador", .bool false),
       ("diabetes", .bool false)])
    50 250 60 120 "otro" "blanco" false false false
    (by decide) (by norm_num) (by norm_num) (by decide) (by decide) (by decide)
    (by decide) (by decide) (by decide) (by decide) (by decide) (by decide)

/-- A present in-range numeric required field contributes no error (and at
most a boundary warning). -/
theorem checkField_inRange (D : PDict) (f : String) (lo hi v : ℚ)
    (hl : dlookup D f = some (.num v)) (hr : slookup RANGES f = some (lo, hi))
    (h1 : lo ≤ v) (h2 : v ≤ hi) : ∃ w, checkField D f = .ok ([], w) := by
  simp only [checkField, hl, isMissingVal, Bool.false_eq_true, if_false, hr, pyFloat]
  rw [if_neg (not_not_intro ⟨h1, h2⟩)]
  split_ifs
  · exact ⟨_, rfl⟩
  · exact ⟨_, rfl⟩

/-- Validation of a male record with all four numeric fields in range
succeeds and returns the record with the four flags defaulted. -/
theorem validate_mkPatient_ok (a c h p : ℚ)
    (ha1 : 20 ≤ a) (ha2 : a ≤ 79) (hc1 : 100 ≤ c) (hc2 : c ≤ 400)
    (hh1 : 20 ≤ h) (hh2 : h ≤ 100) (hp1 : 90 ≤ p) (hp2 : p ≤ 200) :
    ∃ w, validate_patient_data (mkPatient a c h p "hombre") =
      .ok (true, w, mkPatientFull a c h p "hombre") := by
  obtain ⟨w1, hF1⟩ := checkField_inRange (mkPatient a c h p "hombre") "edad" 20 79 a
    (by simp [mkPatient, dlookup]) (by decide) ha1 ha2
  obtain ⟨w2, hF2⟩ := checkField_inRange (mkPatient a c h p "hombre") "colesterol_total"
    100 400 c (by simp [mkPatient, dlookup]) (by decide) hc1 hc2
  obtain ⟨w3, hF3⟩ := checkField_inRange (mkPatient a c h p "hombre") "hdl" 20 100 h
    (by simp [mkPatient, dlookup]) (by decide) hh1 hh2
  obtain ⟨w4, hF4⟩ := checkField_inRange (mkPatient a c h p "hombre") "presion_sistolica"
    90 200 p (by simp [mkPatient, dlookup]) (by decide) hp1 hp2
  have hFs : checkField (mkPatient a c h p "hombre") "sexo" = .ok ([], []) := by
    simp [checkField, mkPatient, dlookup, slookup, RANGES, isMissingVal]
  have hR : checkRequired (mkPatient a c h p "hombre") requiredFields =
      .ok ([], w1 ++ (w2 ++ (w3 ++ w4))) := by
    simp [checkRequired, requiredFields, hF1, hF2, hF3, hF4, hFs]
  have hS : checkSexo (mkPatient a c h p "hombre") = [] := by
    simp [checkSexo, mkPatient, dlookup, isValidSexVal]
  have hC : coerceBools (mkPatient a c h p "hombre") = mkPatientFull a c h p "hombre" := by
    simp [coerceBools, boolFields, coerceBoolField, mkPatient, mkPatientFull, dlookup, dset]
  have hh0 : h ≠ 0 := by intro h0; rw [h0] at hh1; norm_num at hh1
  have hA : checkAgePressure (mkPatientFull a c h p "hombre") =
      .ok ((if a < 40 ∧ p > 140 then [VMsg.pressureAge] else []) ++
        (if a > 65 ∧ p > 130 then [VMsg.pressureAge] else [])) := by
    simp [checkAgePressure, mkPatientFull, mkPatient, dlookup, pyFloat]
  have hH : checkCholHdl (mkPatientFull a c h p "hombre") =
      .ok (if 5 < c / h then [VMsg.ratioHigh] else []) := by
    simp [checkCholHdl, mkPatientFull, mkPatient, dlookup, pyFloat, pyDiv, hh0]
  refine ⟨(w1 ++ (w2 ++ (w3 ++ w4))) ++
      ((if a < 40 ∧ p > 140 then [VMsg.pressureAge] else []) ++
       (if a > 65 ∧ p > 130 then [VMsg.pressureAge] else [])) ++
      (if 5 < c / h then [VMsg.ratioHigh] else []), ?_⟩
  have hend := validate_eval (mkPatient a c h p "hombre") [] (w1 ++ (w2 ++ (w3 ++ w4))) []
    (mkPatientFull a c h p "hombre") _ _ hR hS hC hA hH
  simpa using hend

/-- C1 counterexample: a record that passes validation (age 78) but is
outside the Framingham window makes the whole /calculate/all request fail
with a 422 calculation error — the sibling models never produce results and
the aggregate request does not succeed. -/
theorem C1_counterexample :
    validate_patient_data patient78 = .ok (true, [], patient78Full) ∧
    calculate "all" patient78 =
      .unprocessable ("Error en cálculo: " ++
        "Framingham Risk Score solo es válido para pacientes de 30 a 74 años.") := by
  have hv : validate_patient_data patient78 = .ok (true, [], patient78Full) := by
    have hend := validate_eval patient78 [] [] [] patient78Full [] []
      (by decide) (by decide) (by decide) (by decide)
      (by simp [checkCholHdl, patient78Full, patient78, mkPatient, dlookup, pyFloat, pyDiv]
          norm_num)
    simpa using hend
  refine ⟨hv, ?_⟩
  have hfp : framingham_points patient78Full =
      .error (.valueError
        "Framingham Risk Score solo es válido para pacientes de 30 a 74 años.") := by
    simp only [framingham_points, dget,
      show dlookup patient78Full "edad" = some (.num 78) from by decide, pyNum]
    rw [if_pos (by norm_num : (78 : ℚ) < 30 ∨ (78 : ℚ) > 74)]
  have hrm : runModels "all" patient78Full =
      .error (.valueError
        "Framingham Risk Score solo es válido para pacientes de 30 a 74 años.") := by
    simp [runModels, framingham_risk, hfp]
  unfold calculate
  rw [hv]
  dsimp only
  rw [if_pos rfl, hrm]
  simp [errMsg]

/-- C1 amended: a single model's applicability failure does not leave an
aggregate success.  For a validated male record with age in [30,40) the
SCORE (and ACC/AHA) failure is captured as that model's own error result and
Framingham still produces its result, but the facade's error scan then fails
the whole request as 422 "Error en score: ..."; for age in (74,79] the
Framingham applicability ValueError propagates out of the try block and the
whole request fails as 422 "Error en cálculo: ..." with no sibling results. -/
theorem C1_model_failure_fails_request (a a2 c h p : ℚ)
    (h30 : 30 ≤ a) (h40 : a < 40) (h74 : 74 < a2) (h79 : a2 ≤ 79)
    (hc1 : 100 ≤ c) (hc2 : c ≤ 400) (hh1 : 20 ≤ h) (hh2 : h ≤ 100)
    (hp1 : 90 ≤ p) (hp2 : p ≤ 200) :
    (∃ mr, framingham_risk (mkPatientFull a c h p "hombre") = .ok mr ∧ mr.error = none) ∧
    score_risk (mkPatientFull a c h p "hombre") =
      ⟨0.0, "error", some "SCORE solo es válido para pacientes de 40 a 65 años."⟩ ∧
    calculate "all" (mkPatient a c h p "hombre") =
      .unprocessable ("Error en " ++ "score" ++ ": " ++
        "SCORE solo es válido para pacientes de 40 a 65 años.") ∧
    calculate "all" (mkPatient a2 c h p "hombre") =
      .unprocessable ("Error en cálculo: " ++
        "Framingham Risk Score solo es válido para pacientes de 30 a 74 años.") := by
  have hEd : dlookup (mkPatientFull a c h p "hombre") "edad" = some (.num a) := by
    simp [mkPatientFull, mkPatient, dlookup]
  have hSx : dlookup (mkPatientFull a c h p "hombre") "sexo" = some (.str "hombre") := by
    simp [mkPatientFull, mkPatient, dlookup]
  have hCh : dlookup (mkPatientFull a c h p "hombre") "colesterol_total" = some (.num c) := by
    simp [mkPatientFull, mkPatient, dlookup]
  have hHd : dlookup (mkPatientFull a c h p "hombre") "hdl" = some (.num h) := by
    simp [mkPatientFull, mkPatient, dlookup]
  have hPr : dlookup (mkPatientFull a c h p "hombre") "presion_sistolica" = some (.num p) := by
    simp [mkPatientFull, mkPatient, dlookup]
  have hDb : dlookup (mkPatientFull a c h p "hombre") "diabetes" = some (.bool false) := by
    simp [mkPatientFull, mkPatient, dlookup, dset]
  have hFm : dlookup (mkPatientFull a c h p "hombre") "fumador" = some (.bool false) := by
    simp [mkPatientFull, mkPatient, dlookup, dset]
  have hTx : dlookup (mkPatientFull a c h p "hombre") "tratamiento_hipertension" =
      some (.bool false) := by
    simp [mkPatientFull, mkPatient, dlookup, dset]
  have hRz : pyGet (mkPatientFull a c h p "hombre") "raza" (.str "blanco") = .str "blanco" := by
    simp [pyGet, mkPatientFull, mkPatient, dlookup]
  obtain ⟨L, s0, hfp, _⟩ := framingham_points_ok (mkPatientFull a c h p "hombre")
    a c h p "hombre" false false hEd (by linarith) (by linarith) hSx
    hCh (by linarith) hHd (by linarith) hPr (by linarith) hDb hFm
  have hfOk : framingham_risk (mkPatientFull a c h p "hombre") =
      .ok ⟨round1 (min ((1 - s0 ^ Real.exp L) * 100) 100.0),
        categorize_risk (round1 (min ((1 - s0 ^ Real.exp L) * 100) 100.0)), none⟩ := by
    simp [framingham_risk, hfp]
  have hsl : score_lookup (mkPatientFull a c h p "hombre") =
      .error (.valueError "SCORE solo es válido para pacientes de 40 a 65 años.") := by
    simp only [score_lookup, dget, hEd, pyNum]
    rw [if_pos (Or.inl h40)]
  have hsRes : score_risk (mkPatientFull a c h p "hombre") =
      ⟨0.0, "error", some "SCORE solo es válido para pacientes de 40 a 65 años."⟩ := by
    simp [score_risk, hsl, errMsg]
  have hal : acc_aha_equation (mkPatientFull a c h p "hombre") =
      .error (.valueError "La ecuación ACC/AHA solo es válida para pacientes de 40 a 79 años.") := by
    simp only [acc_aha_equation, dget, hEd, pyFloat, hSx, pyLower, hRz,
      hCh, hHd, hPr, hTx, hFm, hDb, pyInt]
    rw [if_pos (Or.inl h40)]
  have haRes : acc_aha_risk (mkPatientFull a c h p "hombre") =
      ⟨0.0, "error",
        some "La ecuación ACC/AHA solo es válida para pacientes de 40 a 79 años."⟩ := by
    simp [acc_aha_risk, hal, errMsg]
  have hrm : runModels "all" (mkPatientFull a c h p "hombre") =
      .ok [("framingham", ⟨round1 (min ((1 - s0 ^ Real.exp L) * 100) 100.0),
              categorize_risk (round1 (min ((1 - s0 ^ Real.exp L) * 100) 100.0)), none⟩),
           ("score", ⟨0.0, "error", some "SCORE solo es válido para pacientes de 40 a 65 años."⟩),
           ("acc_aha", ⟨0.0, "error",
              some "La ecuación ACC/AHA solo es válida para pacientes de 40 a 79 años."⟩)] := by
    simp [runModels, hfOk, hsRes, haRes]
  obtain ⟨w, hv⟩ := validate_mkPatient_ok a c h p (by linarith) (by linarith)
    hc1 hc2 hh1 hh2 hp1 hp2
  refine ⟨⟨_, hfOk, rfl⟩, hsRes, ?_, ?_⟩
  · unfold calculate
    rw [hv]
    dsimp only
    rw [if_pos rfl, hrm]
    simp [List.find?, Option.getD]
  · obtain ⟨w2, hv2⟩ := validate_mkPatient_ok a2 c h p (by linarith) h79
      hc1 hc2 hh1 hh2 hp1 hp2
    have hEd2 : dlookup (mkPatientFull a2 c h p "hombre") "edad" = some (.num a2) := by
      simp [mkPatientFull, mkPatient, dlookup]
    have hfp2 : framingham_points (mkPatientFull a2 c h p "hombre") =
        .error (.valueError
          "Framingham Risk Score solo es válido para pacientes de 30 a 74 años.") := by
      simp only [framingham_points, dget, hEd2, pyNum]
      rw [if_pos (Or.inr h74)]
    have hrm2 : runModels "all" (mkPatientFull a2 c h p "hombre") =
        .error (.valueError
          "Framingham Risk Score solo es válido para pacientes de 30 a 74 años.") := by
      simp [runModels, framingham_risk, hfp2]
    unfold calculate
    rw [hv2]
    dsimp only
    rw [if_pos rfl, hrm2]
    simp [errMsg]

/-- C1 witness: the amended theorem at a concrete validated record with age
35: the whole /calculate/all request fails with the 422 naming SCORE. -/
theorem C1_model_failure_witness :
    calculate "all" (mkPatient 35 250 60 120 "hombre") =
      .unprocessable ("Error en " ++ "score" ++ ": " ++
        "SCORE solo es válido para pacientes de 40 a 65 años.") :=
  (C1_model_failure_fails_request 35 78 250 60 120 (by norm_num) (by norm_num)
    (by norm_num) (by norm_num) (by norm_num) (by norm_num) (by norm_num)
    (by norm_num) (by norm_num) (by norm_num)).2.2.1

end Cardio
